import Mathlib

/-!
Verification of the resilient data-retrieval and LLM-invocation orchestration
layer of the daily stock analysis system.

The Python sources are shallowly embedded: pure helpers become Lean functions,
the retry loops become explicit recursion over an environment that supplies
the outcome of each external call, Python exceptions become `Except` values,
and the bare `except` handlers of the source are explicit in the embedding.
Machine floats are modelled by `ℚ` (every quantity the claims touch is either
compared exactly or produced by exact arithmetic).
-/

namespace StockAnalysis

/-- Python `s.strip()`: drop whitespace from both ends. -/
def pyStrip (s : String) : String :=
  ⟨((s.data.dropWhile Char.isWhitespace).reverse.dropWhile Char.isWhitespace).reverse⟩

/-- Python `s.replace(c, '')` for a one-character pattern `c`: every
occurrence of the character is removed. -/
def removeAllChar (c : Char) (s : String) : String :=
  ⟨s.data.filter (fun d => d ≠ c)⟩

/-- Python `s.lower()` (ASCII case folding; CJK characters are unaffected). -/
def pyLower (s : String) : String :=
  ⟨s.data.map Char.toLower⟩

/-- Python `s[:n]` (slicing counts code points). -/
def pyTake (s : String) (n : ℕ) : String :=
  ⟨s.data.take n⟩

/-- Python `s.startswith(p)`. -/
def pyStartsWith (s p : String) : Bool :=
  p.data.isPrefixOf s.data

/-- Substring containment on character lists: `hasSub hay needle` is true when
`needle` occurs contiguously inside `hay` (models Python `needle in hay`). -/
def hasSub : List Char → List Char → Bool
  | [], needle => needle.isEmpty
  | hay@(_ :: rest), needle => needle.isPrefixOf hay || hasSub rest needle

/-- Python `sub in s` for strings. -/
def containsSub (s sub : String) : Bool := hasSub s.data sub.data

/-- Python exceptions that the embedded code can raise. -/
inductive PyErr where
  | valueError (msg : String)
  | typeError (msg : String)
  | attributeError (msg : String)
  | requestException (msg : String)
  | connectionError (msg : String)
  | otherException (msg : String)
  deriving Repr, DecidableEq

/-- The message carried by an exception (Python `str(e)`). -/
def PyErr.msg : PyErr → String
  | .valueError m | .typeError m | .attributeError m
  | .requestException m | .connectionError m | .otherException m => m

/-! ## Dynamically typed provider values

`PVal` models the values that appear in provider dataframes: `None`, strings,
numbers and booleans.  `financial_fetcher._safe_float` receives such values. -/

inductive PVal where
  | none
  | str (s : String)
  | num (q : ℚ)
  | bool (b : Bool)
  deriving Repr, DecidableEq

/-- Python `v == s` for a string literal `s` (numbers and booleans never equal
a string; `None == s` is `False`). -/
def PVal.eqStr : PVal → String → Bool
  | .str t, s => t = s
  | _, _ => false

/-- Python truthiness of a provider value. -/
def PVal.truthy : PVal → Bool
  | .none => false
  | .str s => s ≠ ""
  | .num q => q ≠ 0
  | .bool b => b

/-- Python `str(v)`.  The textual form of a number is abstracted by
`toString`; no claim depends on the rendering of numbers. -/
def PVal.toStr : PVal → String
  | .none => "None"
  | .str s => s
  | .num q => toString q
  | .bool b => if b then "True" else "False"

/-! ## Decimal string parsing (model of Python `float(str)`) -/

/-- Accumulate a digit list into a natural number. -/
def digitsToNat (cs : List Char) : ℕ :=
  cs.foldl (fun n c => n * 10 + (c.toNat - '0'.toNat)) 0

/-- Parse an unsigned decimal: digits with at most one point, at least one
digit overall ("12", "12.", ".5", "12.5"). -/
def parseDecimal (cs : List Char) : Option ℚ :=
  let intPart := cs.takeWhile Char.isDigit
  let rest := cs.dropWhile Char.isDigit
  match rest with
  | [] => if intPart.isEmpty then Option.none else some (digitsToNat intPart : ℚ)
  | '.' :: frac =>
    if frac.all Char.isDigit && !(intPart.isEmpty && frac.isEmpty) then
      some ((digitsToNat intPart : ℚ) + (digitsToNat frac : ℚ) / (10 ^ frac.length : ℚ))
    else Option.none
  | _ => Option.none

/-- Model of Python `float` applied to a string: optional sign then a decimal
literal, surrounding whitespace stripped; anything else fails.  (Exotic forms
such as exponents or `inf` are not produced by the providers and are treated
as unparseable.) -/
def pyFloatOfString (s : String) : Option ℚ :=
  match (pyStrip s).data with
  | '-' :: rest => (parseDecimal rest).map (fun q => -q)
  | '+' :: rest => parseDecimal rest
  | cs => parseDecimal cs

/-- Model of Python `float(value)` on a dynamically typed value. -/
def pyFloat : PVal → Except PyErr ℚ
  | .none => .error (.typeError "float() argument must not be None")
  | .str s =>
    match pyFloatOfString s with
    | some q => .ok q
    | Option.none => .error (.valueError ("could not convert string to float: " ++ s))
  | .num q => .ok q
  | .bool b => .ok (if b then 1 else 0)

/-! ## `FinancialFetcher._safe_float` and `FinancialFetcher._parse_percent` -/

/-- The `try` body of `_safe_float`: the `None`/`''`/`'--'` guard, then for
strings strip whitespace and remove `%` and `,`, then `float(...)` (which can
raise). -/
def safe_float_body (value : PVal) : Except PyErr (Option ℚ) :=
  if value = PVal.none || value.eqStr "" || value.eqStr "--" then
    .ok Option.none
  else
    let value :=
      match value with
      | .str s => PVal.str (removeAllChar ',' (removeAllChar '%' (pyStrip s)))
      | v => v
    (pyFloat value).map some

/-- `FinancialFetcher._safe_float`: the body wrapped in the source's bare
`except`, which converts any raised exception into `None`. -/
def safe_float (value : PVal) : Option ℚ :=
  match safe_float_body value with
  | .ok r => r
  | .error _ => Option.none

/-- The `try` body of `_parse_percent` (argument already a string). -/
def parse_percent_body (value_str : String) : Except PyErr (Option ℚ) :=
  if value_str = "" || value_str = "--" then
    .ok Option.none
  else
    let cleaned := removeAllChar ',' (removeAllChar '%' (pyStrip value_str))
    (pyFloat (.str cleaned)).map some

/-- `FinancialFetcher._parse_percent`: body plus bare `except` returning
`None`. -/
def parse_percent (value_str : String) : Option ℚ :=
  match parse_percent_body value_str with
  | .ok r => r
  | .error _ => Option.none

/-! ## Provider rows and fetch outcomes -/

/-- A dataframe row: a finite map from column name to value, as an
association list (first binding wins, like a Python dict lookup). -/
def Row := List (String × PVal)

/-- `key in row` / `row.get(key)`. -/
def rowGet? (r : Row) (k : String) : Option PVal :=
  (r.find? (fun p => p.1 = k)).map (fun p => p.2)

/-- `row[key]`, only used where the source has established presence. -/
def rowGetD (r : Row) (k : String) : PVal :=
  (rowGet? r k).getD PVal.none

/-- Outcome of one call into an external provider library: it either raises
(with a message) or returns a dataframe, given as a list of rows (`[]` models
an empty dataframe; the embedding treats a `None` dataframe the same way,
since the source checks `df is None or df.empty` as one condition). -/
inductive FetchOutcome (α : Type) where
  | raise (msg : String)
  | ok (a : α)

/-- Truthiness of an `Optional[float]` field (Python: `None` and `0.0` are
falsy). -/
def truthyQ : Option ℚ → Bool
  | Option.none => false
  | some q => q ≠ 0

/-! ## `FinancialIndicators` and `FinancialFetcher` -/

/-- The `FinancialIndicators` dataclass. -/
structure FinancialIndicators where
  code : String
  name : String := ""
  roe : Option ℚ := Option.none
  roa : Option ℚ := Option.none
  gross_profit_margin : Option ℚ := Option.none
  net_profit_margin : Option ℚ := Option.none
  revenue_growth : Option ℚ := Option.none
  profit_growth : Option ℚ := Option.none
  revenue_growth_3y : Option ℚ := Option.none
  profit_growth_3y : Option ℚ := Option.none
  pe_ttm : Option ℚ := Option.none
  pb : Option ℚ := Option.none
  ps_ttm : Option ℚ := Option.none
  debt_to_asset : Option ℚ := Option.none
  current_ratio : Option ℚ := Option.none
  report_date : Option String := Option.none
  update_time : Option String := Option.none
  data_source : String := "unknown"
  deriving Repr, DecidableEq

/-- Method 1 helper: `if s and s != False: _parse_percent(str(s))` applied to
an optional row value (`.get(col, None)`). -/
def parsePercentIfTruthy (v : Option PVal) : Option ℚ :=
  match v with
  | Option.none => Option.none
  | some pv =>
    if pv.truthy && !(pv = PVal.bool false) then parse_percent pv.toStr
    else Option.none

/-- Method 1 of `_get_indicators_from_eastmoney`: the ths financial abstract
endpoint.  The dataframe is chronologically ascending, so the last row is the
most recent; each field is parsed only when truthy and not the `False`
placeholder.  Returns a record whenever the dataframe is non-empty. -/
def thsAbstractMethod (stock_code : String) (df : List Row) : Option FinancialIndicators :=
  match df.getLast? with
  | Option.none => Option.none
  | some latest =>
    some { code := stock_code
           data_source := "ths_abstract"
           report_date := some (rowGetD latest "报告期").toStr
           roe := parsePercentIfTruthy (rowGet? latest "净资产收益率")
           revenue_growth := parsePercentIfTruthy (rowGet? latest "营业总收入同比增长率")
           profit_growth := parsePercentIfTruthy (rowGet? latest "净利润同比增长率")
           gross_profit_margin := parsePercentIfTruthy (rowGet? latest "销售毛利率")
           net_profit_margin := parsePercentIfTruthy (rowGet? latest "销售净利率") }

/-- Column-name aliases for method 2 (financial analysis indicator). -/
def roe_keys : List String := ["净资产收益率", "ROE", "加权平均净资产收益率"]

def revenue_keys_indicator : List String := ["营业总收入同比增长", "营业收入同比增长率", "营业收入增长率"]

def profit_keys_indicator : List String := ["净利润同比增长", "净利润同比增长率", "净利润增长率"]

/-- The alias loop of method 2: `for key in keys: if key in latest:
field = _safe_float(latest[key]); break` — the first present alias wins, even
when it parses to `None`. -/
def firstAliasVal (keys : List String) (row : Row) : Option ℚ :=
  match keys with
  | [] => Option.none
  | k :: rest =>
    if (rowGet? row k).isSome then safe_float (rowGetD row k)
    else firstAliasVal rest row

/-- Method 2 of `_get_indicators_from_eastmoney`: the analysis-indicator
endpoint (`iloc[0]` is the most recent row).  The record is returned only when
`indicators.roe or indicators.revenue_growth or indicators.profit_growth` is
truthy; otherwise the method produces nothing and the chain falls through. -/
def analysisIndicatorMethod (stock_code : String) (df : List Row) : Option FinancialIndicators :=
  match df.head? with
  | Option.none => Option.none
  | some latest =>
    let roe := firstAliasVal roe_keys latest
    let rev := firstAliasVal revenue_keys_indicator latest
    let prof := firstAliasVal profit_keys_indicator latest
    if truthyQ roe || truthyQ rev || truthyQ prof then
      some { code := stock_code
             data_source := "eastmoney_indicator"
             report_date := some (rowGetD latest "日期").toStr
             roe := roe, revenue_growth := rev, profit_growth := prof }
    else Option.none

/-- Column-name candidates for the income-statement growth computation. -/
def revenue_keys_income : List String := ["营业总收入", "营业收入"]

def profit_keys_income : List String := ["净利润", "归属于母公司股东的净利润"]

/-- The growth loop of method 3: for the first key present in both periods
whose parsed values are truthy with a strictly positive previous value, store
`(current - previous) / previous * 100`; when the guard fails the loop moves
on to the next key without storing anything. -/
def growthFromPeriods (keys : List String) (current previous : Row) : Option ℚ :=
  match keys with
  | [] => Option.none
  | k :: rest =>
    if (rowGet? current k).isSome && (rowGet? previous k).isSome then
      let c := safe_float (rowGetD current k)
      let p := safe_float (rowGetD previous k)
      if truthyQ c && truthyQ p && decide (0 < p.getD 0) then
        some ((c.getD 0 - p.getD 0) / p.getD 0 * 100)
      else growthFromPeriods rest current previous
    else growthFromPeriods rest current previous

/-- Method 3 of `_get_indicators_from_eastmoney`: the income-statement
endpoint, requiring at least two period rows (`iloc[0]` current, `iloc[1]`
previous) and deriving the growth ratios; the record is returned only when a
growth field is truthy. -/
def incomeStatementMethod (stock_code : String) (df : List Row) : Option FinancialIndicators :=
  if 2 ≤ df.length then
    let current := df.headD []
    let previous := (df.drop 1).headD []
    let rev := growthFromPeriods revenue_keys_income current previous
    let prof := growthFromPeriods profit_keys_income current previous
    if truthyQ rev || truthyQ prof then
      some { code := stock_code
             data_source := "sina_income"
             report_date := some (rowGetD current "报告期").toStr
             revenue_growth := rev, profit_growth := prof }
    else Option.none
  else Option.none

/-- The three eastmoney endpoint outcomes for one fetch call. -/
structure EastmoneyEnv where
  thsAbstract : FetchOutcome (List Row)
  analysisIndicator : FetchOutcome (List Row)
  incomeStatement : FetchOutcome (List Row)

/-- Run one method body against its endpoint outcome: an exception from the
endpoint is caught by the per-method `except` and the chain falls through. -/
def runMethod (method : List Row → Option FinancialIndicators)
    (outcome : FetchOutcome (List Row)) : Option FinancialIndicators :=
  match outcome with
  | .raise _ => Option.none
  | .ok df => method df

/-- `FinancialFetcher._get_indicators_from_eastmoney`: methods 1, 2, 3 in
order, first producing method wins; all failures yield `None`. -/
def get_indicators_from_eastmoney (stock_code : String) (env : EastmoneyEnv) :
    Option FinancialIndicators :=
  match runMethod (thsAbstractMethod stock_code) env.thsAbstract with
  | some r => some r
  | Option.none =>
  match runMethod (analysisIndicatorMethod stock_code) env.analysisIndicator with
  | some r => some r
  | Option.none => runMethod (incomeStatementMethod stock_code) env.incomeStatement

/-- `FinancialFetcher._get_indicators_from_sina`: the stub second provider,
currently always unavailable. -/
def get_indicators_from_sina (_stock_code : String) : Option FinancialIndicators :=
  Option.none

/-- `FinancialFetcher.get_financial_indicators`: eastmoney first, sina as the
fallback. -/
def get_financial_indicators (stock_code : String) (env : EastmoneyEnv) :
    Option FinancialIndicators :=
  match get_indicators_from_eastmoney stock_code env with
  | some r => some r
  | Option.none => get_indicators_from_sina stock_code

/-! ## `MoneyFlowData` and `MoneyFlowFetcher` -/

/-- The `MoneyFlowData` dataclass (amounts in ten-thousand currency units). -/
structure MoneyFlowData where
  code : String
  name : String := ""
  trade_date : String := ""
  buy_sm_amount : Option ℚ := Option.none
  sell_sm_amount : Option ℚ := Option.none
  buy_md_amount : Option ℚ := Option.none
  sell_md_amount : Option ℚ := Option.none
  buy_lg_amount : Option ℚ := Option.none
  sell_lg_amount : Option ℚ := Option.none
  buy_elg_amount : Option ℚ := Option.none
  sell_elg_amount : Option ℚ := Option.none
  net_mf_amount : Option ℚ := Option.none
  net_mf_sm : Option ℚ := Option.none
  net_mf_md : Option ℚ := Option.none
  net_mf_lg : Option ℚ := Option.none
  net_mf_elg : Option ℚ := Option.none
  main_net_inflow : Option ℚ := Option.none
  main_net_inflow_rate : Option ℚ := Option.none
  north_net_inflow : Option ℚ := Option.none
  north_buy : Option ℚ := Option.none
  north_sell : Option ℚ := Option.none
  data_source : String := "unknown"
  deriving Repr, DecidableEq

/-- One row of the Tushare `moneyflow` dataframe (typed projection of the
columns the source reads; a missing column reads as `None`). -/
structure TsRow where
  trade_date : Option String := Option.none
  buy_sm_amount : Option ℚ := Option.none
  sell_sm_amount : Option ℚ := Option.none
  buy_md_amount : Option ℚ := Option.none
  sell_md_amount : Option ℚ := Option.none
  buy_lg_amount : Option ℚ := Option.none
  sell_lg_amount : Option ℚ := Option.none
  buy_elg_amount : Option ℚ := Option.none
  sell_elg_amount : Option ℚ := Option.none
  net_mf_amount : Option ℚ := Option.none
  net_mf_sm : Option ℚ := Option.none
  net_mf_md : Option ℚ := Option.none
  net_mf_lg : Option ℚ := Option.none
  net_mf_elg : Option ℚ := Option.none
  amount : Option ℚ := Option.none

/-- One row of the AkShare `stock_individual_fund_flow` dataframe (monetary
columns in raw currency units; field names transliterate the Chinese column
names the source reads). -/
structure AkRow where
  day : Option String := Option.none
  main_net_yuan : Option ℚ := Option.none
  main_net_rate : Option ℚ := Option.none
  elg_net_yuan : Option ℚ := Option.none
  lg_net_yuan : Option ℚ := Option.none
  md_net_yuan : Option ℚ := Option.none
  sm_net_yuan : Option ℚ := Option.none

/-- Python `x.get(col, 0) or 0` on an optional numeric column. -/
def orZero (o : Option ℚ) : ℚ := o.getD 0

/-- `MoneyFlowFetcher._get_moneyflow_from_tushare`.  `api_init` models
`self._tushare_api` being initialized; a raised provider exception is
classified by message substring (authorization vs other) for logging only and
the method returns `None` either way. -/
def get_moneyflow_from_tushare (stock_code : String) (api_init : Bool)
    (outcome : FetchOutcome (List TsRow)) : Option MoneyFlowData :=
  if !api_init then Option.none
  else
    match outcome with
    | .raise msg =>
      let _is_auth := containsSub msg "没有权限" || containsSub msg "权限" || containsSub msg "积分"
      Option.none
    | .ok rows =>
      match rows.head? with
      | Option.none => Option.none
      | some latest =>
        let net_lg := orZero latest.net_mf_lg
        let net_elg := orZero latest.net_mf_elg
        let main_net_inflow := net_lg + net_elg
        let main_net_inflow_rate : Option ℚ :=
          match latest.amount with
          | some amt => if amt ≠ 0 ∧ 0 < amt then some (main_net_inflow * 10 / amt * 100)
                        else Option.none
          | Option.none => Option.none
        some { code := stock_code
               trade_date := latest.trade_date.getD ""
               buy_sm_amount := latest.buy_sm_amount
               sell_sm_amount := latest.sell_sm_amount
               buy_md_amount := latest.buy_md_amount
               sell_md_amount := latest.sell_md_amount
               buy_lg_amount := latest.buy_lg_amount
               sell_lg_amount := latest.sell_lg_amount
               buy_elg_amount := latest.buy_elg_amount
               sell_elg_amount := latest.sell_elg_amount
               net_mf_amount := latest.net_mf_amount
               net_mf_sm := latest.net_mf_sm
               net_mf_md := latest.net_mf_md
               net_mf_lg := latest.net_mf_lg
               net_mf_elg := latest.net_mf_elg
               main_net_inflow := some main_net_inflow
               main_net_inflow_rate := main_net_inflow_rate
               data_source := "tushare_moneyflow" }

/-- `MoneyFlowFetcher._get_moneyflow_from_akshare`: free fallback; native
currency units are divided by 10000 into the ten-thousand-unit convention and
`main_net_inflow` is taken from the provider's main-net column. -/
def get_moneyflow_from_akshare (stock_code : String)
    (outcome : FetchOutcome (List AkRow)) : Option MoneyFlowData :=
  match outcome with
  | .raise _ => Option.none
  | .ok rows =>
    match rows.head? with
    | Option.none => Option.none
    | some latest =>
      let main_net_inflow_wan := orZero latest.main_net_yuan / 10000
      some { code := stock_code
             trade_date := removeAllChar '-' (latest.day.getD "")
             net_mf_amount := some main_net_inflow_wan
             net_mf_elg := some (orZero latest.elg_net_yuan / 10000)
             net_mf_lg := some (orZero latest.lg_net_yuan / 10000)
             net_mf_md := some (orZero latest.md_net_yuan / 10000)
             net_mf_sm := some (orZero latest.sm_net_yuan / 10000)
             main_net_inflow := some main_net_inflow_wan
             main_net_inflow_rate := latest.main_net_rate
             data_source := "akshare_individual_flow" }

/-- `MoneyFlowFetcher.get_moneyflow`: Tushare first, AkShare when Tushare
yields nothing. -/
def get_moneyflow (stock_code : String) (api_init : Bool)
    (tsOutcome : FetchOutcome (List TsRow)) (akOutcome : FetchOutcome (List AkRow)) :
    Option MoneyFlowData :=
  match get_moneyflow_from_tushare stock_code api_init tsOutcome with
  | some r => some r
  | Option.none => get_moneyflow_from_akshare stock_code akOutcome

/-! ## `dynamic_stock_selector` -/

/-- One entry of the eastmoney snapshot (`f12` code, `f14` name, `f6`
turnover, `f3` percentage change); `.get` defaults mirror the source. -/
structure StockEntry where
  f12 : String := ""
  f14 : String := ""
  f6 : ℚ := 0
  f3 : ℚ := 0
  deriving Repr, DecidableEq

/-- The decoded snapshot payload: `rc` status and the `data.diff` list
(`none` models a missing/empty `data.diff`). -/
structure SnapshotPayload where
  rc : ℤ := 0
  diff : List StockEntry := []
  deriving Repr, DecidableEq

/-- Outcome of one HTTP attempt of a market-rank fetcher. -/
inductive HttpOutcome where
  | requestExc (msg : String)
  | otherExc (msg : String)
  | ok (payload : SnapshotPayload)

/-- The raw `try` body of `get_top_stocks_by_volume` (before its `except`
clauses): HTTP/network failures raise, otherwise the codes of the rows with a
truthy `f12` are collected in order. -/
def topVolumeRaw (outcome : HttpOutcome) : Except PyErr (List String) :=
  match outcome with
  | .requestExc msg => .error (.requestException msg)
  | .otherExc msg => .error (.otherException msg)
  | .ok payload =>
    if payload.rc ≠ 0 ∨ payload.diff = [] then .ok []
    else .ok ((payload.diff.filter (fun s => s.f12 ≠ "")).map (fun s => s.f12))

/-- `get_top_stocks_by_volume` body including its own `except
RequestException` / `except Exception` clauses, both of which return `[]`:
the wrapped function never lets an exception escape. -/
def topVolumeCall (outcome : HttpOutcome) : Except PyErr (List String) :=
  match topVolumeRaw outcome with
  | .ok l => .ok l
  | .error (.requestException _) => .ok []
  | .error _ => .ok []

/-- The ST-filtering collection loop of `get_top_stocks_by_change`: skip
entries whose truthy name contains "ST", keep truthy codes, stop at `n`. -/
def collectChange (n : ℕ) (exclude_st : Bool) : List StockEntry → List String → List String
  | [], acc => acc.reverse
  | s :: rest, acc =>
    if exclude_st && (s.f14 ≠ "") && containsSub s.f14 "ST" then
      collectChange n exclude_st rest acc
    else if s.f12 ≠ "" then
      if n ≤ acc.length + 1 then (s.f12 :: acc).reverse
      else collectChange n exclude_st rest (s.f12 :: acc)
    else collectChange n exclude_st rest acc

/-- The raw `try` body of `get_top_stocks_by_change`. -/
def topChangeRaw (n : ℕ) (exclude_st : Bool) (outcome : HttpOutcome) :
    Except PyErr (List String) :=
  match outcome with
  | .requestExc msg => .error (.requestException msg)
  | .otherExc msg => .error (.otherException msg)
  | .ok payload =>
    if payload.rc ≠ 0 ∨ payload.diff = [] then .ok []
    else .ok (collectChange n exclude_st payload.diff [])

/-- `get_top_stocks_by_change` body including both `except` clauses. -/
def topChangeCall (n : ℕ) (exclude_st : Bool) (outcome : HttpOutcome) :
    Except PyErr (List String) :=
  match topChangeRaw n exclude_st outcome with
  | .ok l => .ok l
  | .error (.requestException _) => .ok []
  | .error _ => .ok []

/-- Is an exception retryable for `_retry_decorator`
(`retry_if_exception_type((RequestException, ConnectionError))`)? -/
def retryableNetErr : PyErr → Bool
  | .requestException _ => true
  | .connectionError _ => true
  | _ => false

/-- The tenacity `retry` wrapper with `stop_after_attempt`, `reraise=True`:
runs the call; on a retryable exception with attempts remaining it retries,
otherwise the exception is re-raised.  Returns the number of attempts made
together with the final outcome. -/
def tenacityRun (call : ℕ → Except PyErr α) (retryable : PyErr → Bool) :
    (fuel : ℕ) → (i : ℕ) → ℕ × Except PyErr α
  | 0, i => (i, .error (.otherException "RetryError"))
  | fuel + 1, i =>
    match call i with
    | .ok a => (i + 1, .ok a)
    | .error e =>
      if retryable e && decide (0 < fuel) then tenacityRun call retryable fuel (i + 1)
      else (i + 1, .error e)

/-- `get_top_stocks_by_volume` as decorated by `_retry_decorator`
(`stop_after_attempt(3)`); the environment gives each HTTP attempt's
outcome. -/
def get_top_stocks_by_volume (env : ℕ → HttpOutcome) : ℕ × Except PyErr (List String) :=
  tenacityRun (fun i => topVolumeCall (env i)) retryableNetErr 3 0

/-- `get_top_stocks_by_change` as decorated by `_retry_decorator`. -/
def get_top_stocks_by_change (n : ℕ) (exclude_st : Bool) (env : ℕ → HttpOutcome) :
    ℕ × Except PyErr (List String) :=
  tenacityRun (fun i => topChangeCall n exclude_st (env i)) retryableNetErr 3 0

/-! ## `GeminiAnalyzer._call_api_with_retry` and `_call_openai_api`

The loops are embedded as recursion on the remaining attempt budget.  The
environment supplies, for each attempt index and active model name, what the
generation call does: raise, or return a response whose text may be empty.
`_switch_to_fallback_model` can itself fail (its `except` returns `False`);
`switchOk` supplies that outcome per attempt.  Each run returns a trace:
the backoff sleeps performed, the attempt indices at which the model was
switched, the number of attempts fired, each fired attempt's result, and the
overall result (`error` carries `last_error`, which is `none` when no attempt
ever ran). -/

/-- Outcome of one generation call. -/
inductive GenOutcome where
  | raise (msg : String)
  | respond (text : String)

/-- Retry configuration (`gemini_max_retries`, `gemini_retry_delay`,
`gemini_model_fallback`). -/
structure RetryCfg where
  maxRetries : ℕ
  baseDelay : ℚ
  fallbackModel : String

/-- The backoff before attempt `k ≥ 1`:
`min(base_delay * 2 ** (attempt - 1), 60)`. -/
def backoffDelay (base : ℚ) (attempt : ℕ) : ℚ :=
  min (base * 2 ^ (attempt - 1)) 60

/-- `'429' in e or 'quota' in e.lower() or 'rate' in e.lower()`. -/
def isRateLimitMsg (msg : String) : Bool :=
  containsSub msg "429" || containsSub (pyLower msg) "quota" || containsSub (pyLower msg) "rate"

/-- One attempt: a raise propagates its message; a response with falsy text
raises the given empty-response `ValueError` message; otherwise the text is
returned. -/
def attemptResult (emptyMsg : String) (o : GenOutcome) : Except String String :=
  match o with
  | .raise m => .error m
  | .respond t => if t = "" then .error emptyMsg else .ok t

/-- Trace of one retry loop. -/
structure LoopTrace where
  sleeps : List ℚ := []
  switches : List ℕ := []
  fired : ℕ := 0
  outcomes : List (Except String String) := []
  result : Except (Option String) String

/-- The Gemini `for attempt in range(max_retries)` loop of
`_call_api_with_retry`: backoff before attempts `≥ 1`; a successful non-empty
response returns immediately; on failure, when the error is rate-limit
classified, `attempt >= max_retries // 2` and no fallback has been tried,
the loop switches to the fallback model (when the switch itself succeeds) at
most once; every failure updates `last_error` and the loop continues. -/
def runGem (env : ℕ → String → GenOutcome) (switchOk : ℕ → Bool) (cfg : RetryCfg) :
    ℕ → ℕ → String → Bool → Option String → LoopTrace
  | 0, _, _, _, lastErr => { result := .error lastErr }
  | n + 1, a, model, tried, _lastErr =>
    let preSleep : List ℚ := if 0 < a then [backoffDelay cfg.baseDelay a] else []
    match attemptResult "Gemini 返回空响应" (env a model) with
    | .ok text =>
      { sleeps := preSleep, switches := [], fired := 1,
        outcomes := [.ok text], result := .ok text }
    | .error msg =>
      let doSwitch := isRateLimitMsg msg && decide (cfg.maxRetries / 2 ≤ a) && !tried
      let next :=
        if doSwitch then
          if switchOk a then (cfg.fallbackModel, true, [a])
          else (model, tried, ([] : List ℕ))
        else (model, tried, ([] : List ℕ))
      let t := runGem env switchOk cfg n (a + 1) next.1 next.2.1 (some msg)
      { sleeps := preSleep ++ t.sleeps
        switches := next.2.2 ++ t.switches
        fired := t.fired + 1
        outcomes := .error msg :: t.outcomes
        result := t.result }

/-- The `_call_openai_api` loop: same backoff; no model switching; the
exception of the final attempt (`attempt == max_retries - 1`) is re-raised;
with a zero attempt budget the loop body never runs and the trailing generic
exception is raised. -/
def runOai (envO : ℕ → GenOutcome) (cfg : RetryCfg) : ℕ → ℕ → LoopTrace
  | 0, _ => { result := .error (some "OpenAI API 调用失败，已达最大重试次数") }
  | n + 1, a =>
    let preSleep : List ℚ := if 0 < a then [backoffDelay cfg.baseDelay a] else []
    match attemptResult "OpenAI API 返回空响应" (envO a) with
    | .ok text =>
      { sleeps := preSleep, fired := 1, outcomes := [.ok text], result := .ok text }
    | .error msg =>
      if a = cfg.maxRetries - 1 then
        { sleeps := preSleep, fired := 1, outcomes := [.error msg],
          result := .error (some msg) }
      else
        let t := runOai envO cfg n (a + 1)
        { sleeps := preSleep ++ t.sleeps, switches := t.switches, fired := t.fired + 1,
          outcomes := .error msg :: t.outcomes, result := t.result }

/-- Trace of a whole `_call_api_with_retry` call: the Gemini loop trace, the
OpenAI loop trace when that loop ran, and the overall result (the error side
is the message of the exception that `_call_api_with_retry` raises). -/
structure CallTrace where
  gem : LoopTrace := { result := .error Option.none }
  oai : Option LoopTrace := Option.none
  result : Except String String

/-- The Gemini loop as started by `_call_api_with_retry`: attempts `0` to
`max_retries - 1`, `tried_fallback` seeded from `self._using_fallback`,
`last_error` initially `None`. -/
def gemLoop (cfg : RetryCfg) (env : ℕ → String → GenOutcome) (switchOk : ℕ → Bool)
    (initModel : String) (initUsingFallback : Bool) : LoopTrace :=
  runGem env switchOk cfg cfg.maxRetries 0 initModel initUsingFallback Option.none

/-- The `_call_openai_api` loop as started by `_call_api_with_retry`:
attempts `0` to `max_retries - 1`. -/
def oaiLoop (cfg : RetryCfg) (envO : ℕ → GenOutcome) : LoopTrace :=
  runOai envO cfg cfg.maxRetries 0

/-- `GeminiAnalyzer._call_api_with_retry`.  `use_openai` models
`self._use_openai` (OpenAI-only mode); `openai_client` models
`self._openai_client` being present; `lazy_openai` models the
key-and-base-url-configured lazy initialization succeeding.  On Gemini
exhaustion with an OpenAI path available, the OpenAI loop runs once; a
surviving failure re-raises `last_error or openai_error`, and with no OpenAI
path it re-raises `last_error or Exception(...)`. -/
def call_api_with_retry (cfg : RetryCfg) (env : ℕ → String → GenOutcome)
    (switchOk : ℕ → Bool) (envO : ℕ → GenOutcome)
    (use_openai openai_client lazy_openai : Bool)
    (initModel : String) (initUsingFallback : Bool) : CallTrace :=
  if use_openai then
    let o := oaiLoop cfg envO
    { oai := some o,
      result :=
        match o.result with
        | .ok t => .ok t
        | .error e => .error (e.getD "OpenAI API 调用失败，已达最大重试次数") }
  else
    let g := gemLoop cfg env switchOk initModel initUsingFallback
    match g.result with
    | .ok t => { gem := g, result := .ok t }
    | .error lastErr =>
      if openai_client || lazy_openai then
        let o := oaiLoop cfg envO
        match o.result with
        | .ok t => { gem := g, oai := some o, result := .ok t }
        | .error oErr =>
          { gem := g, oai := some o,
            result := .error (lastErr.getD
              (oErr.getD "OpenAI API 调用失败，已达最大重试次数")) }
      else
        { gem := g, result := .error (lastErr.getD "所有 AI API 调用失败，已达最大重试次数") }

/-! ## JSON values and the response interpreter -/

/-- Decoded JSON values (the output type of the structured decode step;
`json.loads` itself is Python's standard library and is passed to the
interpreter as the `decode` parameter). -/
inductive JVal where
  | null
  | jbool (b : Bool)
  | jnum (q : ℚ)
  | jstr (s : String)
  | jarr (xs : List JVal)
  | jobj (fields : List (String × JVal))

/-- Dict lookup inside a decoded object. -/
def jLookup (fields : List (String × JVal)) (k : String) : Option JVal :=
  (fields.find? (fun p => p.1 = k)).map (fun p => p.2)

/-- Python `v.get(k, d)`: defined for dicts, an `AttributeError` otherwise. -/
def jGetD (v : JVal) (k : String) (d : JVal) : Except PyErr JVal :=
  match v with
  | .jobj fields => .ok ((jLookup fields k).getD d)
  | _ => .error (.attributeError "no attribute get")

/-- Python `v.get(k, None)` returning an optional value. -/
def jGetOpt (v : JVal) (k : String) : Except PyErr (Option JVal) :=
  match v with
  | .jobj fields => .ok (jLookup fields k)
  | _ => .error (.attributeError "no attribute get")

/-- Python `int()` truncates a float toward zero. -/
def pyTrunc (q : ℚ) : ℤ := Int.tdiv q.num q.den

/-- Python `int(str)`: optional sign then digits. -/
def pyIntOfString (s : String) : Option ℤ :=
  match (pyStrip s).data with
  | '-' :: cs =>
    if cs ≠ [] && cs.all Char.isDigit then some (-(digitsToNat cs : ℤ)) else Option.none
  | '+' :: cs =>
    if cs ≠ [] && cs.all Char.isDigit then some (digitsToNat cs : ℤ) else Option.none
  | cs =>
    if cs ≠ [] && cs.all Char.isDigit then some (digitsToNat cs : ℤ) else Option.none

/-- Python `int(v)` on a decoded JSON value. -/
def pyIntE : JVal → Except PyErr ℤ
  | .jnum q => .ok (pyTrunc q)
  | .jstr s =>
    match pyIntOfString s with
    | some n => .ok n
    | Option.none => .error (.valueError ("invalid literal for int: " ++ s))
  | .jbool b => .ok (if b then 1 else 0)
  | _ => .error (.typeError "int() argument")

/-- `re.sub(r'//.*?\x6e', chr(10), s)` of `_fix_json_string`: drop each `//`
comment up to and including the newline that terminates it (the newline is
the replacement); a trailing comment with no newline has no match. -/
def stripLineComments : ℕ → List Char → List Char
  | 0, cs => cs
  | fuel + 1, cs =>
    match cs with
    | '/' :: '/' :: rest =>
      match rest.dropWhile (fun c => c ≠ '\n') with
      | [] => '/' :: '/' :: rest
      | _ :: after => '\n' :: stripLineComments fuel after
    | c :: rest => c :: stripLineComments fuel rest
    | [] => []

/-- Scan to the closing `*/` of a block comment. -/
def dropBlockComment : List Char → Option (List Char)
  | [] => Option.none
  | '*' :: '/' :: rest => some rest
  | _ :: rest => dropBlockComment rest

/-- `re.sub` of the DOTALL block-comment pattern. -/
def stripBlockComments : ℕ → List Char → List Char
  | 0, cs => cs
  | fuel + 1, cs =>
    match cs with
    | '/' :: '*' :: rest =>
      match dropBlockComment rest with
      | some after => stripBlockComments fuel after
      | Option.none => '/' :: '*' :: rest
    | c :: rest => c :: stripBlockComments fuel rest
    | [] => []

/-- `re.sub(r',\s*CLOSE', 'CLOSE', s)`: drop a comma followed by whitespace
and the closing bracket. -/
def fixTrailing (close : Char) : ℕ → List Char → List Char
  | 0, cs => cs
  | fuel + 1, cs =>
    match cs with
    | ',' :: rest =>
      match rest.dropWhile Char.isWhitespace with
      | c :: after =>
        if c = close then close :: fixTrailing close fuel after
        else ',' :: fixTrailing close fuel rest
      | [] => ',' :: fixTrailing close fuel rest
    | c :: rest => c :: fixTrailing close fuel rest
    | [] => []

/-- `s.replace('True', 'true').replace('False', 'false')`. -/
def fixBoolLits : ℕ → List Char → List Char
  | 0, cs => cs
  | fuel + 1, cs =>
    match cs with
    | 'T' :: 'r' :: 'u' :: 'e' :: rest => 't' :: 'r' :: 'u' :: 'e' :: fixBoolLits fuel rest
    | 'F' :: 'a' :: 'l' :: 's' :: 'e' :: rest =>
      'f' :: 'a' :: 'l' :: 's' :: 'e' :: fixBoolLits fuel rest
    | c :: rest => c :: fixBoolLits fuel rest
    | [] => []

/-- `GeminiAnalyzer._fix_json_string`: strip line and block comments, drop
trailing commas before `}` and `]`, lowercase capitalized boolean literals. -/
def fix_json_string (s : String) : String :=
  let cs1 := stripLineComments s.data.length s.data
  let cs2 := stripBlockComments cs1.length cs1
  let cs3 := fixTrailing '}' cs2.length cs2
  let cs4 := fixTrailing ']' cs3.length cs3
  ⟨fixBoolLits cs4.length cs4⟩

/-- Python `s.replace(pat, '')` for a non-empty pattern: remove every
(left-to-right, non-overlapping) occurrence. -/
def removeSub (pat : List Char) : ℕ → List Char → List Char
  | 0, cs => cs
  | fuel + 1, cs =>
    match cs with
    | [] => []
    | c :: rest =>
      if pat.isPrefixOf cs then removeSub pat fuel (cs.drop pat.length)
      else c :: removeSub pat fuel rest

/-- `s.replace(pat, '')` on strings. -/
def pyRemoveAll (s pat : String) : String :=
  ⟨removeSub pat.data s.data.length s.data⟩

/-- The fence-stripping step of `_parse_response`. -/
def stripFences (text : String) : String :=
  if containsSub text "```json" then pyRemoveAll (pyRemoveAll text "```json") "```"
  else if containsSub text "```" then pyRemoveAll text "```"
  else text

/-- Index of the first occurrence of a character. -/
def firstIdx (c : Char) : List Char → Option ℕ
  | [] => Option.none
  | d :: rest => if d = c then some 0 else (firstIdx c rest).map (fun i => i + 1)

/-- Index of the last occurrence of a character (`str.rfind`). -/
def lastIdx (c : Char) (cs : List Char) : Option ℕ :=
  (firstIdx c cs.reverse).map (fun r => cs.length - 1 - r)

/-- `json_start = cleaned.find('\x7b')`, `json_end = cleaned.rfind('\x7d') + 1`,
slice when `json_start >= 0 and json_end > json_start`. -/
def locateJson (cleaned : String) : Option String :=
  match firstIdx '{' cleaned.data, lastIdx '}' cleaned.data with
  | some i, some j => if i < j + 1 then some ⟨(cleaned.data.drop i).take (j + 1 - i)⟩
                      else Option.none
  | some _, Option.none => Option.none
  | Option.none, _ => Option.none

/-! ## `AnalysisResult`, `_parse_text_response`, `_parse_response`, `analyze` -/

/-- The `AnalysisResult` dataclass.  Fields that the source populates from
decoded JSON without coercion are typed `JVal`; scores are integers because
the source coerces them with `int(...)`. -/
structure AnalysisResult where
  code : String
  name : String
  sentiment_score : ℤ
  trend_prediction : JVal
  operation_advice : JVal
  confidence_level : JVal := .jstr "中"
  value_score : ℤ := 0
  funding_score : ℤ := 0
  news_score : ℤ := 0
  trend_score : ℤ := 0
  dimensions : Option JVal := Option.none
  dashboard : Option JVal := Option.none
  trend_analysis : JVal := .jstr ""
  short_term_outlook : JVal := .jstr ""
  medium_term_outlook : JVal := .jstr ""
  technical_analysis : JVal := .jstr ""
  ma_analysis : JVal := .jstr ""
  volume_analysis : JVal := .jstr ""
  pattern_analysis : JVal := .jstr ""
  fundamental_analysis : JVal := .jstr ""
  sector_position : JVal := .jstr ""
  company_highlights : JVal := .jstr ""
  news_summary : JVal := .jstr ""
  market_sentiment : JVal := .jstr ""
  hot_topics : JVal := .jstr ""
  analysis_summary : JVal := .jstr ""
  key_points : JVal := .jstr ""
  risk_warning : JVal := .jstr ""
  buy_reason : JVal := .jstr ""
  raw_response : Option String := Option.none
  search_performed : JVal := .jbool false
  data_sources : JVal := .jstr ""
  success : Bool := true
  error_message : Option String := Option.none

/-- The fixed keyword sets of `_parse_text_response`. -/
def positive_keywords : List String :=
  ["看多", "买入", "上涨", "突破", "强势", "利好", "加仓", "bullish", "buy"]

def negative_keywords : List String :=
  ["看空", "卖出", "下跌", "跌破", "弱势", "利空", "减仓", "bearish", "sell"]

/-- `sum(1 for kw in kws if kw in text_lower)`. -/
def keywordCount (kws : List String) (text_lower : String) : ℕ :=
  (kws.filter (fun kw => containsSub text_lower kw)).length

/-- `GeminiAnalyzer._parse_text_response`: keyword heuristic on the raw
text. -/
def parse_text_response (response_text code name : String) : AnalysisResult :=
  let text_lower := pyLower response_text
  let positive_count := keywordCount positive_keywords text_lower
  let negative_count := keywordCount negative_keywords text_lower
  let scored : ℤ × String × String :=
    if negative_count + 1 < positive_count then (65, "看多", "买入")
    else if positive_count + 1 < negative_count then (35, "看空", "卖出")
    else (50, "震荡", "持有")
  let summary := if response_text ≠ "" then pyTake response_text 500 else "无分析结果"
  { code := code, name := name
    sentiment_score := scored.1
    trend_prediction := .jstr scored.2.1
    operation_advice := .jstr scored.2.2
    confidence_level := .jstr "低"
    analysis_summary := .jstr summary
    key_points := .jstr "JSON解析失败，仅供参考"
    risk_warning := .jstr "分析结果可能不准确，建议结合其他信息判断"
    raw_response := some response_text
    success := true }

/-- The extraction step of `_parse_response` on decoded data: the four
per-dimension scores (default 50 when the key is absent, coerced with
`int(...)`), the dashboard, and every narrative field with its explicit
default. -/
def buildResultE (data : JVal) (code name : String) : Except PyErr AnalysisResult := do
  let dimensions ← jGetD data "dimensions" (.jobj [])
  let value_data ← jGetD dimensions "value_investment" (.jobj [])
  let funding_data ← jGetD dimensions "funding_flow" (.jobj [])
  let news_data ← jGetD dimensions "news_sentiment" (.jobj [])
  let trend_data ← jGetD dimensions "trend_analysis" (.jobj [])
  let value_score ← pyIntE (← jGetD value_data "score" (.jnum 50))
  let funding_score ← pyIntE (← jGetD funding_data "score" (.jnum 50))
  let news_score ← pyIntE (← jGetD news_data "score" (.jnum 50))
  let trend_score ← pyIntE (← jGetD trend_data "score" (.jnum 50))
  let dashboard ← jGetOpt data "dashboard"
  let sentiment_score ← pyIntE (← jGetD data "sentiment_score" (.jnum 50))
  let trend_prediction ← jGetD data "trend_prediction" (.jstr "震荡")
  let operation_advice ← jGetD data "operation_advice" (.jstr "持有")
  let confidence_level ← jGetD data "confidence_level" (.jstr "中")
  let trend_analysis ← jGetD data "trend_analysis" (.jstr "")
  let short_term_outlook ← jGetD data "short_term_outlook" (.jstr "")
  let medium_term_outlook ← jGetD data "medium_term_outlook" (.jstr "")
  let technical_analysis ← jGetD data "technical_analysis" (.jstr "")
  let ma_analysis ← jGetD data "ma_analysis" (.jstr "")
  let volume_analysis ← jGetD data "volume_analysis" (.jstr "")
  let pattern_analysis ← jGetD data "pattern_analysis" (.jstr "")
  let fundamental_analysis ← jGetD data "fundamental_analysis" (.jstr "")
  let sector_position ← jGetD data "sector_position" (.jstr "")
  let company_highlights ← jGetD data "company_highlights" (.jstr "")
  let news_summary ← jGetD data "news_summary" (.jstr "")
  let market_sentiment ← jGetD data "market_sentiment" (.jstr "")
  let hot_topics ← jGetD data "hot_topics" (.jstr "")
  let analysis_summary ← jGetD data "analysis_summary" (.jstr "分析完成")
  let key_points ← jGetD data "key_points" (.jstr "")
  let risk_warning ← jGetD data "risk_warning" (.jstr "")
  let buy_reason ← jGetD data "buy_reason" (.jstr "")
  let search_performed ← jGetD data "search_performed" (.jbool false)
  let data_sources ← jGetD data "data_sources" (.jstr "技术面数据")
  return { code := code, name := name
           sentiment_score := sentiment_score
           trend_prediction := trend_prediction
           operation_advice := operation_advice
           confidence_level := confidence_level
           value_score := value_score
           funding_score := funding_score
           news_score := news_score
           trend_score := trend_score
           dimensions := some dimensions
           dashboard := dashboard
           trend_analysis := trend_analysis
           short_term_outlook := short_term_outlook
           medium_term_outlook := medium_term_outlook
           technical_analysis := technical_analysis
           ma_analysis := ma_analysis
           volume_analysis := volume_analysis
           pattern_analysis := pattern_analysis
           fundamental_analysis := fundamental_analysis
           sector_position := sector_position
           company_highlights := company_highlights
           news_summary := news_summary
           market_sentiment := market_sentiment
           hot_topics := hot_topics
           analysis_summary := analysis_summary
           key_points := key_points
           risk_warning := risk_warning
           buy_reason := buy_reason
           search_performed := search_performed
           data_sources := data_sources
           success := true }

/-- `GeminiAnalyzer._parse_response`: strip fences, locate the braced span,
repair it, decode it with the (library-supplied) `decode`; decode failure or
a missing span falls back to `_parse_text_response` on the raw text (the
`except json.JSONDecodeError` path); field extraction can still raise. -/
def parse_response (decode : String → Option JVal) (response_text code name : String) :
    Except PyErr AnalysisResult :=
  let cleaned := stripFences response_text
  match locateJson cleaned with
  | some json_str =>
    match decode (fix_json_string json_str) with
    | some data => buildResultE data code name
    | Option.none => .ok (parse_text_response response_text code name)
  | Option.none => .ok (parse_text_response response_text code name)

/-- The static code-to-name table (`STOCK_NAME_MAP`). -/
def STOCK_NAME_MAP : List (String × String) :=
  [("600519", "贵州茅台"), ("000001", "平安银行"), ("300750", "宁德时代"),
   ("002594", "比亚迪"), ("600036", "招商银行"), ("601318", "中国平安"),
   ("000858", "五粮液"), ("600276", "恒瑞医药"), ("601012", "隆基绿能"),
   ("002475", "立讯精密"), ("300059", "东方财富"), ("002415", "海康威视"),
   ("600900", "长江电力"), ("601166", "兴业银行"), ("600028", "中国石化"),
   ("AAPL", "苹果"), ("TSLA", "特斯拉"), ("MSFT", "微软"), ("GOOGL", "谷歌A"),
   ("GOOG", "谷歌C"), ("AMZN", "亚马逊"), ("NVDA", "英伟达"), ("META", "Meta"),
   ("AMD", "AMD"), ("INTC", "英特尔"), ("BABA", "阿里巴巴"), ("PDD", "拼多多"),
   ("JD", "京东"), ("BIDU", "百度"), ("NIO", "蔚来"), ("XPEV", "小鹏汽车"),
   ("LI", "理想汽车"), ("COIN", "Coinbase"), ("MSTR", "MicroStrategy"),
   ("00700", "腾讯控股"), ("03690", "美团"), ("01810", "小米集团"),
   ("09988", "阿里巴巴"), ("09618", "京东集团"), ("09888", "百度集团"),
   ("01024", "快手"), ("00981", "中芯国际"), ("02015", "理想汽车"),
   ("09868", "小鹏汽车"), ("00005", "汇丰控股"), ("01299", "友邦保险"),
   ("00941", "中国移动"), ("00883", "中国海洋石油")]

/-- The slice of the inbound context that `analyze` reads for name
resolution: `context.get('code', 'Unknown')` (already defaulted), the
optional `stock_name`, and `context['realtime'].get('name')` when the
`realtime` sub-record is present. -/
structure AnalyzeCtx where
  code : String := "Unknown"
  stock_name : Option String := Option.none
  realtime_name : Option String := Option.none

/-- The name-resolution priority of `analyze`: caller-supplied name unless
falsy or a `股票`-placeholder, then the realtime name when truthy, then the
static table, then the synthesized `股票{code}` placeholder. -/
def resolve_name (ctx : AnalyzeCtx) : String :=
  let fallback :=
    match ctx.realtime_name with
    | some r => if r ≠ "" then r
                else ((STOCK_NAME_MAP.find? (fun p => p.1 = ctx.code)).map
                  (fun p => p.2)).getD ("股票" ++ ctx.code)
    | Option.none => ((STOCK_NAME_MAP.find? (fun p => p.1 = ctx.code)).map
        (fun p => p.2)).getD ("股票" ++ ctx.code)
  match ctx.stock_name with
  | some s => if s = "" || pyStartsWith s "股票" then fallback else s
  | Option.none => fallback

/-- The result `analyze` builds in its `except` handler: neutral defaults
plus the exception message (truncated to 100 characters in the summary). -/
def analyzeFailure (code name msg : String) : AnalysisResult :=
  { code := code, name := name
    sentiment_score := 50
    trend_prediction := .jstr "震荡"
    operation_advice := .jstr "持有"
    confidence_level := .jstr "低"
    analysis_summary := .jstr ("分析过程出错: " ++ pyTake msg 100)
    risk_warning := .jstr "分析失败，请稍后重试或手动分析"
    success := false
    error_message := some msg }

/-- `GeminiAnalyzer.analyze`: resolve the name; with no backend configured
return the fixed `success=False` default result; otherwise run the retry
call (its outcome is `callOutcome`) and the interpreter inside the `try`,
attaching the raw text and the search flag on success; any raised exception
is caught and converted to the default-filled failure result. -/
def analyze (ctx : AnalyzeCtx) (available : Bool) (callOutcome : Except String String)
    (decode : String → Option JVal) (news_context : Option String) : AnalysisResult :=
  let code := ctx.code
  let name := resolve_name ctx
  if !available then
    { code := code, name := name
      sentiment_score := 50
      trend_prediction := .jstr "震荡"
      operation_advice := .jstr "持有"
      confidence_level := .jstr "低"
      analysis_summary := .jstr "AI 分析功能未启用（未配置 API Key）"
      risk_warning := .jstr "请配置 Gemini API Key 后重试"
      success := false
      error_message := some "Gemini API Key 未配置" }
  else
    match callOutcome with
    | .ok response_text =>
      match parse_response decode response_text code name with
      | .ok r =>
        { r with raw_response := some response_text
                 search_performed := .jbool (match news_context with
                   | some s => s ≠ ""
                   | Option.none => false) }
      | .error e => analyzeFailure code name e.msg
    | .error e => analyzeFailure code name e

/-- Invariants of a Gemini retry-loop trace started at attempt `a` with
budget `n` and fallback-tried flag `tried`: attempt count is bounded, one
outcome per fired attempt, the sleeps are exactly the capped exponential
backoffs of the fired attempts with positive index, success is the last fired
attempt with all earlier ones failing, no switch once the flag is set, at
most one switch, every switch is at an attempt at or past the midpoint with a
rate-limit-classified failure and a successful switch call, exhaustion
consumes the whole budget with every attempt failing, and on success every
switch happened strictly before the successful attempt. -/
def GemTraceSpec (cfg : RetryCfg) (switchOk : ℕ → Bool) (n a : ℕ) (tried : Bool)
    (t : LoopTrace) : Prop :=
  t.fired ≤ n ∧
  t.outcomes.length = t.fired ∧
  t.sleeps = ((List.range' a t.fired).filter (fun k => decide (0 < k))).map
    (backoffDelay cfg.baseDelay) ∧
  (∀ text, t.result = .ok text →
    ∃ pre, t.outcomes = pre ++ [.ok text] ∧ ∀ o ∈ pre, ∃ m, o = .error m) ∧
  (tried = true → t.switches = []) ∧
  t.switches.length ≤ 1 ∧
  (∀ s ∈ t.switches, a ≤ s ∧ s < a + t.fired ∧ cfg.maxRetries / 2 ≤ s ∧
    switchOk s = true ∧
    ∃ m, t.outcomes.get? (s - a) = some (.error m) ∧ isRateLimitMsg m = true) ∧
  (∀ e, t.result = .error e → t.fired = n ∧ ∀ o ∈ t.outcomes, ∃ m, o = .error m) ∧
  (∀ text, t.result = .ok text → ∀ s ∈ t.switches, s + 1 < a + t.fired)

/-- Invariants of an OpenAI retry-loop trace started at attempt `a`: one
outcome per fired attempt, the same backoff-sleep shape, success is the last
fired attempt with all earlier attempts failing, and no model switches. -/
def OaiTraceSpec (cfg : RetryCfg) (a : ℕ) (t : LoopTrace) : Prop :=
  t.outcomes.length = t.fired ∧
  t.sleeps = ((List.range' a t.fired).filter (fun k => decide (0 < k))).map
    (backoffDelay cfg.baseDelay) ∧
  (∀ text, t.result = .ok text →
    ∃ pre, t.outcomes = pre ++ [.ok text] ∧ ∀ o ∈ pre, ∃ m, o = .error m) ∧
  t.switches = []

/-! ### Theorems -/

/-- The attempts with positive index among `0, …, f - 1` are `1, …, f - 1`. -/
theorem filter_pos_range' (f : ℕ) :
    (List.range' 0 f).filter (fun k => decide (0 < k)) = List.range' 1 (f - 1) := by
  cases f with
  | zero => rfl
  | succ f =>
    rw [List.range'_succ, List.filter_cons]
    simp only [decide_eq_true_eq, Nat.lt_irrefl, if_false]
    rw [List.filter_eq_self.mpr, Nat.succ_sub_one]
    intro x hx
    have := (List.mem_range'_1.mp hx).1
    simpa using this

/-- Every OpenAI retry-loop run satisfies the loop invariants. -/
theorem runOai_trace (envO : ℕ → GenOutcome) (cfg : RetryCfg) :
    ∀ n a : ℕ, OaiTraceSpec cfg a (runOai envO cfg n a) := by
  intro n
  induction n with
  | zero =>
    intro a
    refine ⟨rfl, by simp [runOai], ?_, rfl⟩
    intro text h; cases h
  | succ n ih =>
    intro a
    have hr1 : List.range' a 1 = [a] := by simp [List.range'_succ]
    rcases hres : attemptResult "OpenAI API 返回空响应" (envO a) with msg | text
    · show OaiTraceSpec _ _ _
      rw [runOai, hres]
      dsimp only
      by_cases hlastA : a = cfg.maxRetries - 1
      · rw [if_pos hlastA]
        refine ⟨rfl, ?_, ?_, rfl⟩
        · dsimp only
          rw [hr1]
          by_cases ha : 0 < a <;> simp [ha]
        · intro text h; cases h
      · rw [if_neg hlastA]
        obtain ⟨hlen, hsl, hok, hswz⟩ := ih (a + 1)
        refine ⟨by simp [hlen], ?_, ?_, by simp [hswz]⟩
        · dsimp only
          rw [List.range'_succ, List.filter_cons, hsl]
          by_cases ha : 0 < a <;> simp [ha]
        · intro text h
          obtain ⟨pre, hpre, hall⟩ := hok text h
          refine ⟨.error msg :: pre, by simp [hpre], ?_⟩
          intro o ho
          rcases List.mem_cons.mp ho with rfl | ho₂
          · exact ⟨msg, rfl⟩
          · exact hall o ho₂
    · show OaiTraceSpec _ _ _
      rw [runOai, hres]
      refine ⟨rfl, ?_, ?_, rfl⟩
      · dsimp only
        rw [hr1]
        by_cases ha : 0 < a <;> simp [ha]
      · intro text' h
        rw [Except.ok.injEq] at h
        exact ⟨[], by simp [h], by simp⟩

/-- A trace that succeeds on its first fired attempt satisfies the loop
invariants. -/
theorem GemTraceSpec.success {cfg : RetryCfg} {switchOk : ℕ → Bool} {n a : ℕ}
    {tried : Bool} {text : String} :
    GemTraceSpec cfg switchOk (n + 1) a tried
      { sleeps := (if 0 < a then [backoffDelay cfg.baseDelay a] else [])
        switches := []
        fired := 1
        outcomes := [.ok text]
        result := .ok text } := by
  have hr1 : List.range' a 1 = [a] := by simp [List.range'_succ]
  unfold GemTraceSpec
  dsimp only
  refine ⟨by omega, rfl, ?_, ?_, fun _ => rfl, by simp, by simp, ?_, ?_⟩
  · rw [hr1]
    by_cases ha : 0 < a <;> simp [ha]
  · intro text' h
    rw [Except.ok.injEq] at h
    exact ⟨[], by simp [h], by simp⟩
  · intro e h; cases h
  · intro text' _ s hs; cases hs

/-- One failing step preserves the loop invariants: `t'` is the trace of the
rest of the loop (started at `a + 1` with flag `tr'`), `SW` is the switch
record of this attempt (either nothing, or attempt `a` itself under the
midpoint/rate-limit/switch-success conditions with the flag set from here
on). -/
theorem GemTraceSpec.step {cfg : RetryCfg} {switchOk : ℕ → Bool} {n a : ℕ}
    {tried tr' : Bool} {msg : String} {SW : List ℕ} {t' : LoopTrace}
    (h' : GemTraceSpec cfg switchOk n (a + 1) tr' t')
    (hSW : SW = [] ∨ (SW = [a] ∧ cfg.maxRetries / 2 ≤ a ∧ switchOk a = true ∧
      isRateLimitMsg msg = true ∧ tr' = true))
    (htried : tried = true → SW = [] ∧ tr' = true) :
    GemTraceSpec cfg switchOk (n + 1) a tried
      { sleeps := (if 0 < a then [backoffDelay cfg.baseDelay a] else []) ++ t'.sleeps
        switches := SW ++ t'.switches
        fired := t'.fired + 1
        outcomes := .error msg :: t'.outcomes
        result := t'.result } := by
  obtain ⟨hb, hlen, hsl, hok, htr, hswlen, hsw, herr, hlast⟩ := h'
  unfold GemTraceSpec
  dsimp only
  refine ⟨by omega, by simp [hlen], ?_, ?_, ?_, ?_, ?_, ?_, ?_⟩
  · rw [List.range'_succ, List.filter_cons, hsl]
    by_cases ha : 0 < a <;> simp [ha]
  · intro text h
    obtain ⟨pre, hpre, hallerr⟩ := hok text h
    refine ⟨.error msg :: pre, by simp [hpre], ?_⟩
    intro o ho
    rcases List.mem_cons.mp ho with rfl | ho₂
    · exact ⟨msg, rfl⟩
    · exact hallerr o ho₂
  · intro ht
    obtain ⟨hsw0, htr'⟩ := htried ht
    simp [hsw0, htr htr']
  · rcases hSW with rfl | ⟨rfl, _, _, _, htr'⟩
    · simpa using hswlen
    · simp [htr htr']
  · intro s hs
    rcases List.mem_append.mp hs with hs₁ | hs₂
    · rcases hSW with rfl | ⟨rfl, hmid, hswok, hrl, _⟩
      · cases hs₁
      · rcases List.mem_singleton.mp hs₁ with rfl
        refine ⟨Nat.le_refl s, by omega, hmid, hswok, msg, ?_, hrl⟩
        simp
    · obtain ⟨hle, hlt, hmid, hswok, m, hget, hrl⟩ := hsw s hs₂
      refine ⟨by omega, by omega, hmid, hswok, m, ?_, hrl⟩
      have hsub : s - a = (s - (a + 1)) + 1 := by omega
      rw [hsub]
      simpa using hget
  · intro e h
    obtain ⟨hf, hall⟩ := herr e h
    refine ⟨by omega, ?_⟩
    intro o ho
    rcases List.mem_cons.mp ho with rfl | ho₂
    · exact ⟨msg, rfl⟩
    · exact hall o ho₂
  · intro text h s hs
    rcases List.mem_append.mp hs with hs₁ | hs₂
    · rcases hSW with rfl | ⟨rfl, _⟩
      · cases hs₁
      · rcases List.mem_singleton.mp hs₁ with rfl
        obtain ⟨pre, hpre, _⟩ := hok text h
        have : 1 ≤ t'.fired := by
          rw [← hlen, hpre]
          simp
        omega
    · have := hlast text h s hs₂
      omega

/-- Every Gemini retry-loop run satisfies the loop invariants. -/
theorem runGem_trace (env : ℕ → String → GenOutcome) (switchOk : ℕ → Bool)
    (cfg : RetryCfg) :
    ∀ (n a : ℕ) (model : String) (tried : Bool) (lastErr : Option String),
    GemTraceSpec cfg switchOk n a tried (runGem env switchOk cfg n a model tried lastErr) := by
  intro n
  induction n with
  | zero =>
    intro a model tried lastErr
    refine ⟨by simp [runGem], by simp [runGem], by simp [runGem], ?_, ?_, ?_, ?_, ?_, ?_⟩ <;>
      simp [runGem]
  | succ n ih =>
    intro a model tried lastErr
    rcases hres : attemptResult "Gemini 返回空响应" (env a model) with msg | text
    · show GemTraceSpec _ _ _ _ _ _
      rw [runGem, hres]
      dsimp only
      by_cases hcond : (isRateLimitMsg msg && decide (cfg.maxRetries / 2 ≤ a) && !tried) = true
      · rw [if_pos hcond]
        simp only [Bool.and_eq_true, Bool.not_eq_eq_eq_not, Bool.not_true,
          decide_eq_true_eq] at hcond
        obtain ⟨⟨hrl, hmid⟩, htried0⟩ := hcond
        by_cases hswok : switchOk a = true
        · rw [if_pos hswok]
          exact GemTraceSpec.step (ih (a + 1) cfg.fallbackModel true (some msg))
            (Or.inr ⟨rfl, hmid, hswok, hrl, rfl⟩)
            (fun h => absurd h (by simp [htried0]))
        · rw [if_neg hswok]
          exact GemTraceSpec.step (ih (a + 1) model tried (some msg))
            (Or.inl rfl) (fun h => ⟨rfl, h⟩)
      · rw [if_neg hcond]
        exact GemTraceSpec.step (ih (a + 1) model tried (some msg))
          (Or.inl rfl) (fun h => ⟨rfl, h⟩)
    · show GemTraceSpec _ _ _ _ _ _
      rw [runGem, hres]
      dsimp only
      exact GemTraceSpec.success


/-- When every attempt fails with a rate-limit-classified error, the switch
call always succeeds, and the fallback flag is clear, the loop switches
exactly once, at the first attempt index at or past the midpoint. -/
theorem runGem_all_rate_limit (env : ℕ → String → GenOutcome) (switchOk : ℕ → Bool)
    (cfg : RetryCfg)
    (hfail : ∀ k mo, ∃ msg, attemptResult "Gemini 返回空响应" (env k mo) = .error msg ∧
      isRateLimitMsg msg = true)
    (hswitch : ∀ k, switchOk k = true) :
    ∀ (n a : ℕ) (model : String) (lastErr : Option String),
      max a (cfg.maxRetries / 2) < a + n →
      (runGem env switchOk cfg n a model false lastErr).switches =
        [max a (cfg.maxRetries / 2)] := by
  intro n
  induction n with
  | zero =>
    intro a model lastErr hbound
    have := Nat.le_max_left a (cfg.maxRetries / 2)
    omega
  | succ n ih =>
    intro a model lastErr hbound
    obtain ⟨msg, hres, hrl⟩ := hfail a model
    rw [runGem, hres]
    dsimp only
    by_cases hmid : cfg.maxRetries / 2 ≤ a
    · have hcond : (isRateLimitMsg msg && decide (cfg.maxRetries / 2 ≤ a) && !false) = true := by
        simp [hrl, hmid]
      rw [if_pos hcond, if_pos (hswitch a)]
      dsimp only
      have h5 :=
        (runGem_trace env switchOk cfg n (a + 1) cfg.fallbackModel true (some msg)).2.2.2.2.1 rfl
      rw [h5]
      simp [Nat.max_eq_left hmid]
    · have hcond : ¬(isRateLimitMsg msg && decide (cfg.maxRetries / 2 ≤ a) && !false) = true := by
        simp [hmid]
      rw [if_neg hcond]
      dsimp only
      have hmax1 : max a (cfg.maxRetries / 2) = cfg.maxRetries / 2 :=
        Nat.max_eq_right (le_of_lt (lt_of_not_ge hmid))
      have hmax2 : max (a + 1) (cfg.maxRetries / 2) = cfg.maxRetries / 2 :=
        Nat.max_eq_right (by omega)
      rw [hmax1] at hbound
      have ih2 := ih (a + 1) model (some msg) (by rw [hmax2]; omega)
      rw [ih2, hmax1, hmax2]
      rfl

/-- **C1 counterexample.**  With `max_retries = 4`, a call whose failures all
carry a non-rate-limit message ("boom") persists through attempt
`4 // 2 = 2` with no fallback substituted and the switch call available, yet
the loop performs no model substitution at all: the midpoint switch is gated
on the rate-limit classification of the error text, contrary to the claim. -/
theorem C1_model_switch_counterexample :
    (gemLoop ⟨4, 5, "fallback-model"⟩ (fun _ _ => GenOutcome.raise "boom")
      (fun _ => true) "primary-model" false).switches = [] ∧
    (gemLoop ⟨4, 5, "fallback-model"⟩ (fun _ _ => GenOutcome.raise "boom")
      (fun _ => true) "primary-model" false).fired = 4 ∧
    (gemLoop ⟨4, 5, "fallback-model"⟩ (fun _ _ => GenOutcome.raise "boom")
      (fun _ => true) "primary-model" false).result = .error (some "boom") := by
  refine ⟨?_, ?_, ?_⟩ <;> with_unfolding_all rfl

/-- **C1 (amended).**  In `_call_api_with_retry`, the active model is switched
to the configured secondary model at most once per call, never when a
substitution was already in place at initialization, and only at an attempt
`s ≥ max_retries // 2` whose failure is rate-limit-classified (error text
containing "429"/"quota"/"rate") and whose switch call succeeds; when every
attempt fails rate-limit-classified, the switch succeeds, no substitution was
made at initialization and at least one attempt is configured, the
substitution happens exactly once, at attempt `max_retries // 2`. -/
theorem C1_model_switch_amended (cfg : RetryCfg) (env : ℕ → String → GenOutcome)
    (switchOk : ℕ → Bool) (initModel : String) (initUF : Bool) :
    (gemLoop cfg env switchOk initModel initUF).switches.length ≤ 1 ∧
    (initUF = true → (gemLoop cfg env switchOk initModel initUF).switches = []) ∧
    (∀ s ∈ (gemLoop cfg env switchOk initModel initUF).switches,
      cfg.maxRetries / 2 ≤ s ∧ s < (gemLoop cfg env switchOk initModel initUF).fired ∧
      switchOk s = true ∧
      ∃ m, (gemLoop cfg env switchOk initModel initUF).outcomes.get? s =
        some (.error m) ∧ isRateLimitMsg m = true) ∧
    ((∀ k mo, ∃ msg, attemptResult "Gemini 返回空响应" (env k mo) = .error msg ∧
        isRateLimitMsg msg = true) →
      (∀ k, switchOk k = true) → initUF = false → 1 ≤ cfg.maxRetries →
      (gemLoop cfg env switchOk initModel initUF).switches = [cfg.maxRetries / 2]) := by
  obtain ⟨hb, hlen, hsl, hok, htr, hswlen, hsw, herr, hlast⟩ :=
    runGem_trace env switchOk cfg cfg.maxRetries 0 initModel initUF Option.none
  simp only [gemLoop]
  refine ⟨hswlen, htr, ?_, ?_⟩
  · intro s hs
    obtain ⟨_, hlt, hmid, hswok, m, hget, hrl⟩ := hsw s hs
    exact ⟨hmid, by omega, hswok, m, by simpa using hget, hrl⟩
  · intro hfail hswitch hUF hpos
    subst hUF
    have h := runGem_all_rate_limit env switchOk cfg hfail hswitch cfg.maxRetries 0
      initModel Option.none (by rw [Nat.zero_max]; omega)
    rw [h, Nat.zero_max]

/-- Witness for the amended C1: all-rate-limit failures with `max_retries = 4`
produce exactly one substitution, at attempt 2. -/
theorem C1_model_switch_amended_witness :
    (gemLoop ⟨4, 5, "fallback-model"⟩ (fun _ _ => GenOutcome.raise "HTTP 429 quota exceeded")
      (fun _ => true) "primary-model" false).switches = [2] := by
  exact (C1_model_switch_amended ⟨4, 5, "fallback-model"⟩
      (fun _ _ => GenOutcome.raise "HTTP 429 quota exceeded") (fun _ => true)
      "primary-model" false).2.2.2
    (fun k mo => ⟨"HTTP 429 quota exceeded", rfl, by with_unfolding_all rfl⟩)
    (fun _ => rfl) rfl (by with_unfolding_all decide)

/-- **C2.**  In both retry loops of the scoring call, attempt 0 fires with no
preceding sleep and every attempt `k ≥ 1` is preceded by exactly
`min(base_delay * 2^(k-1), 60)`; the first attempt whose response text is
non-empty is the last attempt fired — all earlier fired attempts failed, any
model substitution happened strictly before it — its text is the returned
result, and on a Gemini-loop success `_call_api_with_retry` returns it
without running the OpenAI loop. -/
theorem C2_backoff_and_first_success (cfg : RetryCfg) (env : ℕ → String → GenOutcome)
    (switchOk : ℕ → Bool) (envO : ℕ → GenOutcome) (openai_client lazy_openai : Bool)
    (initModel : String) (initUF : Bool) :
    (gemLoop cfg env switchOk initModel initUF).sleeps =
      (List.range' 1 ((gemLoop cfg env switchOk initModel initUF).fired - 1)).map
        (fun k => min (cfg.baseDelay * 2 ^ (k - 1)) 60) ∧
    (oaiLoop cfg envO).sleeps =
      (List.range' 1 ((oaiLoop cfg envO).fired - 1)).map
        (fun k => min (cfg.baseDelay * 2 ^ (k - 1)) 60) ∧
    (∀ text, (gemLoop cfg env switchOk initModel initUF).result = .ok text →
      (∃ pre, (gemLoop cfg env switchOk initModel initUF).outcomes = pre ++ [.ok text] ∧
        ∀ o ∈ pre, ∃ m, o = .error m) ∧
      (∀ s ∈ (gemLoop cfg env switchOk initModel initUF).switches,
        s + 1 < (gemLoop cfg env switchOk initModel initUF).fired) ∧
      call_api_with_retry cfg env switchOk envO false openai_client lazy_openai
          initModel initUF =
        { gem := gemLoop cfg env switchOk initModel initUF, oai := Option.none,
          result := .ok text }) ∧
    (∀ text, (oaiLoop cfg envO).result = .ok text →
      ∃ pre, (oaiLoop cfg envO).outcomes = pre ++ [.ok text] ∧
        ∀ o ∈ pre, ∃ m, o = .error m) := by
  obtain ⟨hb, hlen, hsl, hok, htr, hswlen, hsw, herr, hlast⟩ :=
    runGem_trace env switchOk cfg cfg.maxRetries 0 initModel initUF Option.none
  obtain ⟨olen, osl, ook, oswz⟩ := runOai_trace envO cfg cfg.maxRetries 0
  simp only [gemLoop, oaiLoop]
  refine ⟨?_, ?_, ?_, ook⟩
  · rw [hsl, filter_pos_range']
    rfl
  · rw [osl, filter_pos_range']
    rfl
  · intro text h
    refine ⟨hok text h, ?_, ?_⟩
    · intro s hs
      have := hlast text h s hs
      omega
    · rw [call_api_with_retry]
      simp only [gemLoop, oaiLoop]
      rw [h]
      rfl

/-- Witness for C2: failure on attempt 0 then success on attempt 1 sleeps
exactly `min(5 * 2^0, 60) = 5` once and short-circuits with the attempt-1
text, without touching the OpenAI loop. -/
theorem C2_backoff_and_first_success_witness :
    call_api_with_retry ⟨4, 5, "fallback-model"⟩
        (fun a _ => if a = 0 then GenOutcome.raise "err" else GenOutcome.respond "scored")
        (fun _ => false) (fun _ => GenOutcome.raise "oai down") false true false
        "primary-model" false =
      { gem := gemLoop ⟨4, 5, "fallback-model"⟩
          (fun a _ => if a = 0 then GenOutcome.raise "err" else GenOutcome.respond "scored")
          (fun _ => false) "primary-model" false,
        oai := Option.none, result := .ok "scored" } := by
  exact ((C2_backoff_and_first_success ⟨4, 5, "fallback-model"⟩
      (fun a _ => if a = 0 then GenOutcome.raise "err" else GenOutcome.respond "scored")
      (fun _ => false) (fun _ => GenOutcome.raise "oai down") true false
      "primary-model" false).2.2.1 "scored" (by with_unfolding_all rfl)).2.2

/-- Lookup in an empty decoded object. -/
theorem jLookup_nil (k : String) : jLookup [] k = Option.none := rfl

/-- Decomposition of a successful `Except` bind. -/
theorem except_bind_ok {ε α β : Type} {x : Except ε α} {f : α → Except ε β} {b : β} :
    (x >>= f) = .ok b ↔ ∃ a, x = .ok a ∧ f a = .ok b := by
  cases x with
  | error e =>
    constructor
    · intro h; cases h
    · rintro ⟨a, ha, _⟩; cases ha
  | ok a =>
    constructor
    · intro h; exact ⟨a, rfl, h⟩
    · rintro ⟨a₂, ha, hf⟩
      rw [Except.ok.injEq] at ha
      rw [ha]; exact hf

/-- Every result the JSON extraction step returns has `success = True`. -/
theorem buildResultE_ok_success (data : JVal) (code name : String) (r : AnalysisResult) :
    buildResultE data code name = .ok r → r.success = true := by
  intro h
  rw [buildResultE] at h
  repeat (rw [except_bind_ok] at h; obtain ⟨_, -, h⟩ := h)
  simp only [pure, Except.pure, Except.ok.injEq] at h
  rw [← h]

/-- Every result `_parse_response` returns (structured or heuristic path)
has `success = True`. -/
theorem parse_response_ok_success (decode : String → Option JVal)
    (text code name : String) (r : AnalysisResult) :
    parse_response decode text code name = .ok r → r.success = true := by
  intro h
  rw [parse_response] at h
  split at h
  · split at h
    · exact buildResultE_ok_success _ code name r h
    · rw [Except.ok.injEq] at h
      rw [← h]; rfl
  · rw [Except.ok.injEq] at h
    rw [← h]; rfl

/-- Reduction of `analyze` on the available-backend path. -/
theorem analyze_ok_case (ctx : AnalyzeCtx) (decode : String → Option JVal)
    (news : Option String) (text : String) :
    analyze ctx true (.ok text) decode news =
      (match parse_response decode text ctx.code (resolve_name ctx) with
       | .ok r =>
         { r with raw_response := some text
                  search_performed := .jbool (match news with
                    | some s => s ≠ ""
                    | Option.none => false) }
       | .error e => analyzeFailure ctx.code (resolve_name ctx) e.msg) := rfl

/-- **C3.** `analyze` never raises — the embedding of its `try` body is total
because the handler is explicit — and every `success=False` result carries
the neutral defaults (score 50, `震荡`, `持有`) with an error message present,
on both the no-backend path and the total-failure path. -/
theorem C3_analyze_failure_defaults (ctx : AnalyzeCtx) (available : Bool)
    (callOutcome : Except String String) (decode : String → Option JVal)
    (news : Option String) :
    ((analyze ctx available callOutcome decode news).success = false →
      (analyze ctx available callOutcome decode news).sentiment_score = 50 ∧
      (analyze ctx available callOutcome decode news).trend_prediction = .jstr "震荡" ∧
      (analyze ctx available callOutcome decode news).operation_advice = .jstr "持有" ∧
      (analyze ctx available callOutcome decode news).confidence_level = .jstr "低" ∧
      (analyze ctx available callOutcome decode news).error_message ≠ Option.none) ∧
    (available = false →
      (analyze ctx available callOutcome decode news).success = false ∧
      (analyze ctx available callOutcome decode news).error_message =
        some "Gemini API Key 未配置") ∧
    (∀ e, available = true → callOutcome = .error e →
      (analyze ctx available callOutcome decode news).success = false ∧
      (analyze ctx available callOutcome decode news).error_message = some e) := by
  cases available with
  | false =>
    refine ⟨?_, ?_, ?_⟩
    · intro _
      refine ⟨rfl, rfl, rfl, rfl, ?_⟩
      simp [analyze]
    · intro _
      exact ⟨rfl, rfl⟩
    · intro e h; cases h
  | true =>
    rcases callOutcome with e | text
    · refine ⟨?_, ?_, ?_⟩
      · intro _
        refine ⟨rfl, rfl, rfl, rfl, ?_⟩
        simp [analyze, analyzeFailure]
      · intro h; cases h
      · intro e₂ _ he
        rw [Except.error.injEq] at he
        subst he
        exact ⟨rfl, rfl⟩
    · rcases hp : parse_response decode text ctx.code (resolve_name ctx) with pe | r
      · refine ⟨?_, ?_, ?_⟩
        · intro _
          have hred : analyze ctx true (.ok text) decode news =
              analyzeFailure ctx.code (resolve_name ctx) pe.msg := by
            rw [analyze_ok_case, hp]
          rw [hred]
          refine ⟨rfl, rfl, rfl, rfl, ?_⟩
          simp [analyzeFailure]
        · intro h; cases h
        · intro e₂ _ he; cases he
      · have hsucc : (analyze ctx true (.ok text) decode news).success = true := by
          rw [analyze_ok_case, hp]
          exact parse_response_ok_success decode text ctx.code (resolve_name ctx) r hp
        refine ⟨?_, ?_, ?_⟩
        · intro hfail
          rw [hsucc] at hfail; cases hfail
        · intro h; cases h
        · intro e₂ _ he; cases he

/-- Witness for C3: with no backend configured, the result is the fully
populated neutral-default failure record. -/
theorem C3_analyze_failure_defaults_witness :
    (analyze { code := "600519" } false (.error "never called") (fun _ => Option.none)
      Option.none).sentiment_score = 50 ∧
    (analyze { code := "600519" } false (.error "never called") (fun _ => Option.none)
      Option.none).error_message = some "Gemini API Key 未配置" ∧
    (analyze { code := "600519" } true (.error "network down") (fun _ => Option.none)
      Option.none).operation_advice = .jstr "持有" ∧
    (analyze { code := "600519" } true (.error "network down") (fun _ => Option.none)
      Option.none).error_message = some "network down" := by
  refine ⟨?_, ?_, ?_, ?_⟩
  · exact ((C3_analyze_failure_defaults { code := "600519" } false (.error "never called")
      (fun _ => Option.none) Option.none).1 (by with_unfolding_all rfl)).1
  · exact ((C3_analyze_failure_defaults { code := "600519" } false (.error "never called")
      (fun _ => Option.none) Option.none).2.1 rfl).2
  · exact ((C3_analyze_failure_defaults { code := "600519" } true (.error "network down")
      (fun _ => Option.none) Option.none).1 (by with_unfolding_all rfl)).2.2.1
  · exact ((C3_analyze_failure_defaults { code := "600519" } true (.error "network down")
      (fun _ => Option.none) Option.none).2.2 "network down" rfl rfl).2

/-- **C5 counterexample.**  On the empty raw text (which has no JSON span and
therefore takes the heuristic path), the summary is the fixed placeholder
`无分析结果`, not the first 500 characters of the raw text (which would be
the empty string) — the claim's summary clause fails at this input. -/
theorem C5_heuristic_summary_counterexample :
    parse_response (fun _ => Option.none) "" "600519" "测试" =
      .ok (parse_text_response "" "600519" "测试") ∧
    (parse_text_response "" "600519" "测试").analysis_summary = .jstr "无分析结果" ∧
    pyTake "" 500 = "" ∧
    (parse_text_response "" "600519" "测试").analysis_summary ≠ .jstr (pyTake "" 500) := by
  refine ⟨?_, ?_, ?_, ?_⟩
  · with_unfolding_all rfl
  · with_unfolding_all rfl
  · with_unfolding_all rfl
  · intro h
    rw [show (parse_text_response "" "600519" "测试").analysis_summary = .jstr "无分析结果"
      from by with_unfolding_all rfl] at h
    rw [show pyTake "" 500 = "" from by with_unfolding_all rfl] at h
    injection h with h2
    exact absurd h2 (by decide)

/-- **C5 (amended).**  Whenever no structured JSON span can be located or the
located, repaired span fails to decode, the interpreter returns the keyword
heuristic's result with `success=True` — a decode failure is never surfaced
as an error — scoring bullish (65, `买入`) when positive keywords exceed
negative by more than 1, bearish (35, `卖出`) in the opposite case, neutral
(50, `持有`) otherwise, always with confidence `低`; the summary is the first
500 characters of the raw text when the text is non-empty (a fixed
placeholder when it is empty). -/
theorem C5_heuristic_fallback_amended (decode : String → Option JVal)
    (text code name : String)
    (hdec : ∀ j, locateJson (stripFences text) = some j →
      decode (fix_json_string j) = Option.none) :
    parse_response decode text code name = .ok (parse_text_response text code name) ∧
    (parse_text_response text code name).success = true ∧
    (parse_text_response text code name).confidence_level = .jstr "低" ∧
    (keywordCount negative_keywords (pyLower text) + 1 <
        keywordCount positive_keywords (pyLower text) →
      (parse_text_response text code name).sentiment_score = 65 ∧
      (parse_text_response text code name).operation_advice = .jstr "买入") ∧
    (keywordCount positive_keywords (pyLower text) + 1 <
        keywordCount negative_keywords (pyLower text) →
      (parse_text_response text code name).sentiment_score = 35 ∧
      (parse_text_response text code name).operation_advice = .jstr "卖出") ∧
    (¬(keywordCount negative_keywords (pyLower text) + 1 <
        keywordCount positive_keywords (pyLower text)) →
      ¬(keywordCount positive_keywords (pyLower text) + 1 <
        keywordCount negative_keywords (pyLower text)) →
      (parse_text_response text code name).sentiment_score = 50 ∧
      (parse_text_response text code name).operation_advice = .jstr "持有") ∧
    (text ≠ "" →
      (parse_text_response text code name).analysis_summary = .jstr (pyTake text 500)) ∧
    (text = "" →
      (parse_text_response text code name).analysis_summary = .jstr "无分析结果") := by
  refine ⟨?_, rfl, rfl, ?_, ?_, ?_, ?_, ?_⟩
  · rw [parse_response]
    rcases hl : locateJson (stripFences text) with _ | j
    · rfl
    · dsimp only
      rw [hdec j hl]
  · intro hpos
    simp only [parse_text_response, if_pos hpos]
    exact ⟨by trivial, by trivial⟩
  · intro hneg
    have hnp : ¬(keywordCount negative_keywords (pyLower text) + 1 <
        keywordCount positive_keywords (pyLower text)) := by omega
    simp only [parse_text_response, if_neg hnp, if_pos hneg]
    exact ⟨by trivial, by trivial⟩
  · intro hnp hnn
    simp only [parse_text_response, if_neg hnp, if_neg hnn]
    exact ⟨by trivial, by trivial⟩
  · intro hne
    simp only [parse_text_response, if_pos hne]
  · intro he
    subst he
    rfl

/-- Witness for the amended C5: a text with three positive keywords and no
negative keyword classifies bullish with score 65 and advice `买入`, at
confidence `低`, through the heuristic path. -/
theorem C5_heuristic_fallback_amended_witness :
    parse_response (fun _ => Option.none) "建议买入，突破在即，主力加仓" "600519" "测试" =
      .ok (parse_text_response "建议买入，突破在即，主力加仓" "600519" "测试") ∧
    (parse_text_response "建议买入，突破在即，主力加仓" "600519" "测试").sentiment_score = 65 ∧
    (parse_text_response "建议买入，突破在即，主力加仓" "600519" "测试").operation_advice =
      .jstr "买入" := by
  have h := C5_heuristic_fallback_amended (fun _ => Option.none)
    "建议买入，突破在即，主力加仓" "600519" "测试" (fun j _ => rfl)
  have hcount : keywordCount negative_keywords (pyLower "建议买入，突破在即，主力加仓") + 1 <
      keywordCount positive_keywords (pyLower "建议买入，突破在即，主力加仓") := by
    with_unfolding_all decide
  exact ⟨h.1, (h.2.2.2.1 hcount).1, (h.2.2.2.1 hcount).2⟩

/-- **C7.** The interpreter extracts the four per-dimension scores from
`dimensions.value_investment`, `dimensions.funding_flow`,
`dimensions.news_sentiment` and `dimensions.trend_analysis` into
`value_score`, `funding_score`, `news_score`, `trend_score`, coerced with
`int(...)` (truncation toward zero), for every quadruple of numeric score
values and whatever other keys the per-dimension objects carry; a dimension
whose `score` key is absent, and every dimension when the `dimensions`
object is empty, contributes the substitute 50. -/
theorem C7_dimension_score_extraction :
    (∀ (qv qf qn qt : ℚ) (vrest frest nrest trest : List (String × JVal))
      (code name : String),
      (buildResultE (.jobj [("dimensions", .jobj
          [("value_investment", .jobj (("score", .jnum qv) :: vrest)),
           ("funding_flow", .jobj (("score", .jnum qf) :: frest)),
           ("news_sentiment", .jobj (("score", .jnum qn) :: nrest)),
           ("trend_analysis", .jobj (("score", .jnum qt) :: trest))])]) code name).toOption.map
          (fun r => (r.value_score, r.funding_score, r.news_score, r.trend_score)) =
        some (pyTrunc qv, pyTrunc qf, pyTrunc qn, pyTrunc qt)) ∧
    (∀ (qv : ℚ) (sf sn st : String) (code name : String),
      (buildResultE (.jobj [("dimensions", .jobj
          [("value_investment", .jobj [("score", .jnum qv)]),
           ("funding_flow", .jobj [("summary", .jstr sf)]),
           ("news_sentiment", .jobj [("summary", .jstr sn)]),
           ("trend_analysis", .jobj [("summary", .jstr st)])])]) code name).toOption.map
          (fun r => (r.value_score, r.funding_score, r.news_score, r.trend_score)) =
        some (pyTrunc qv, 50, 50, 50)) ∧
    (∀ code name : String,
      (buildResultE (.jobj [("dimensions", .jobj [])]) code name).toOption.map
          (fun r => (r.value_score, r.funding_score, r.news_score, r.trend_score)) =
        some (50, 50, 50, 50)) := by
  refine ⟨?_, ?_, ?_⟩
  · intro qv qf qn qt vrest frest nrest trest code name
    rfl
  · intro qv sf sn st code name
    rfl
  · intro code name
    rfl

/-- Witness for C7: scores 80/60/70/50 round-trip unchanged into the four
result fields. -/
theorem C7_dimension_score_extraction_witness :
    (buildResultE (.jobj [("dimensions", .jobj
        [("value_investment", .jobj [("score", .jnum 80)]),
         ("funding_flow", .jobj [("score", .jnum 60)]),
         ("news_sentiment", .jobj [("score", .jnum 70)]),
         ("trend_analysis", .jobj [("score", .jnum 50)])])]) "600519" "贵州茅台").toOption.map
      (fun r => (r.value_score, r.funding_score, r.news_score, r.trend_score)) =
      some (80, 60, 70, 50) := by
  have h := C7_dimension_score_extraction.1 80 60 70 50 [] [] [] [] "600519" "贵州茅台"
  rw [h]
  with_unfolding_all rfl

/-- **C9.** For every input value — including the empty string, `"--"`, strings
containing `%` or thousands-separator commas, `None`, and arbitrary non-numeric
strings — `_safe_float` and `_parse_percent` return either a parsed float (with
`%` and `,` stripped) or absent (`None`), and never raise: every exception the
body can raise is absorbed by the bare `except`, and on each of the malformed
input classes the result is absent while `%`/comma-decorated numerals parse. -/
theorem C9_numeric_parsing_total :
    (∀ v : PVal, (∃ q, safe_float_body v = .ok (some q) ∧ safe_float v = some q) ∨
      safe_float v = Option.none) ∧
    (∀ s : String, (∃ q, parse_percent_body s = .ok (some q) ∧ parse_percent s = some q) ∨
      parse_percent s = Option.none) ∧
    safe_float PVal.none = Option.none ∧
    safe_float (.str "") = Option.none ∧
    safe_float (.str "--") = Option.none ∧
    safe_float (.str "not a number") = Option.none ∧
    safe_float (.str "15.8%") = some (79/5) ∧
    safe_float (.str "1,234.5") = some (2469/2) ∧
    parse_percent "" = Option.none ∧
    parse_percent "--" = Option.none ∧
    parse_percent "n/a" = Option.none ∧
    parse_percent "15.8%" = some (79/5) ∧
    parse_percent "1,234.5%" = some (2469/2) := by
  refine ⟨?_, ?_, ?_, ?_, ?_, ?_, ?_, ?_, ?_, ?_, ?_, ?_, ?_⟩
  · intro v
    rcases h : safe_float_body v with e | r
    · right; simp [safe_float, h]
    · cases r with
      | none => right; simp [safe_float, h]
      | some q => exact Or.inl ⟨q, by simp [h], by simp [safe_float, h]⟩
  · intro s
    rcases h : parse_percent_body s with e | r
    · right; simp [parse_percent, h]
    · cases r with
      | none => right; simp [parse_percent, h]
      | some q => exact Or.inl ⟨q, by simp [h], by simp [parse_percent, h]⟩
  all_goals with_unfolding_all rfl

/-- **C8.** In the income-statement fallback, a growth ratio is computed and
stored only when both period values parse, the previous-period value is
strictly positive (and the current one is non-zero, per the source's
truthiness guard); whenever every candidate column's previous value is absent
or `≤ 0`, the growth field stays absent, so the division is never executed on
a zero or negative base.  The method stores exactly these loop results for
the two most-recent period rows. -/
theorem C8_growth_positive_base_only :
    (∀ (keys : List String) (current previous : Row) (g : ℚ),
      growthFromPeriods keys current previous = some g →
      ∃ k ∈ keys, ∃ c p : ℚ, safe_float (rowGetD current k) = some c ∧
        safe_float (rowGetD previous k) = some p ∧ 0 < p ∧ c ≠ 0 ∧
        g = (c - p) / p * 100) ∧
    (∀ (keys : List String) (current previous : Row),
      (∀ k ∈ keys, ∀ p : ℚ, safe_float (rowGetD previous k) = some p → p ≤ 0) →
      growthFromPeriods keys current previous = Option.none) ∧
    (∀ (code : String) (df : List Row) (r : FinancialIndicators),
      incomeStatementMethod code df = some r →
      r.revenue_growth = growthFromPeriods revenue_keys_income (df.headD []) ((df.drop 1).headD []) ∧
      r.profit_growth = growthFromPeriods profit_keys_income (df.headD []) ((df.drop 1).headD [])) := by
  refine ⟨?_, ?_, ?_⟩
  · intro keys
    induction keys with
    | nil => intro current previous g h; simp [growthFromPeriods] at h
    | cons k rest ih =>
      intro current previous g h
      simp only [growthFromPeriods] at h
      by_cases hpresent : ((rowGet? current k).isSome && (rowGet? previous k).isSome) = true
      · rw [if_pos hpresent] at h
        by_cases hguard : (truthyQ (safe_float (rowGetD current k)) &&
            truthyQ (safe_float (rowGetD previous k)) &&
            decide (0 < (safe_float (rowGetD previous k)).getD 0)) = true
        · rw [if_pos hguard] at h
          rcases Option.some_injective _ h with rfl
          simp only [Bool.and_eq_true, decide_eq_true_eq] at hguard
          obtain ⟨⟨hc, hp⟩, hpos⟩ := hguard
          rcases hcs : safe_float (rowGetD current k) with _ | c
          · rw [hcs] at hc; simp [truthyQ] at hc
          rcases hps : safe_float (rowGetD previous k) with _ | p
          · rw [hps] at hp; simp [truthyQ] at hp
          rw [hcs] at hc; rw [hps] at hp hpos
          simp only [truthyQ, decide_eq_true_eq] at hc hp
          refine ⟨k, List.mem_cons_self k rest, c, p, hcs, hps, ?_, hc, ?_⟩
          · simpa using hpos
          · simp
        · rw [if_neg hguard] at h
          obtain ⟨k₂, hk₂, hrest⟩ := ih current previous g h
          exact ⟨k₂, List.mem_cons_of_mem k hk₂, hrest⟩
      · rw [if_neg hpresent] at h
        obtain ⟨k₂, hk₂, hrest⟩ := ih current previous g h
        exact ⟨k₂, List.mem_cons_of_mem k hk₂, hrest⟩
  · intro keys
    induction keys with
    | nil => intro current previous _; simp [growthFromPeriods]
    | cons k rest ih =>
      intro current previous hneg
      simp only [growthFromPeriods]
      have hrest : growthFromPeriods rest current previous = Option.none :=
        ih current previous (fun k₂ hk₂ => hneg k₂ (List.mem_cons_of_mem k hk₂))
      by_cases hpresent : ((rowGet? current k).isSome && (rowGet? previous k).isSome) = true
      · rw [if_pos hpresent]
        have hguard : ¬(truthyQ (safe_float (rowGetD current k)) &&
            truthyQ (safe_float (rowGetD previous k)) &&
            decide (0 < (safe_float (rowGetD previous k)).getD 0)) = true := by
          rcases hps : safe_float (rowGetD previous k) with _ | p
          · simp [truthyQ]
          · have hple := hneg k (List.mem_cons_self k rest) p hps
            simp [truthyQ, not_lt.mpr hple]
        rw [if_neg hguard]
        exact hrest
      · rw [if_neg hpresent]
        exact hrest
  · intro code df r h
    simp only [incomeStatementMethod] at h
    by_cases hlen : 2 ≤ df.length
    · rw [if_pos hlen] at h
      by_cases hif : (truthyQ (growthFromPeriods revenue_keys_income (df.headD []) ((df.drop 1).headD [])) ||
          truthyQ (growthFromPeriods profit_keys_income (df.headD []) ((df.drop 1).headD []))) = true
      · rw [if_pos hif] at h
        rcases Option.some_injective _ h with rfl
        exact ⟨rfl, rfl⟩
      · rw [if_neg hif] at h; cases h
    · rw [if_neg hlen] at h; cases h

/-- Witness for C8 at concrete inputs: with current revenue 110 and previous
revenue 100 the loop produces `10`, and the theorem locates the positive
base; with previous revenue `-5` (and profit columns absent) the first
direction shows no growth is stored. -/
theorem C8_growth_positive_base_only_witness :
    (∃ k ∈ revenue_keys_income, ∃ c p : ℚ,
      safe_float (rowGetD [("营业总收入", PVal.num 110)] k) = some c ∧
      safe_float (rowGetD [("营业总收入", PVal.num 100)] k) = some p ∧ 0 < p ∧ c ≠ 0 ∧
      (10 : ℚ) = (c - p) / p * 100) ∧
    growthFromPeriods revenue_keys_income [("营业总收入", PVal.num 110)]
      [("营业总收入", PVal.num (-5))] = Option.none := by
  constructor
  · exact C8_growth_positive_base_only.1 revenue_keys_income
      [("营业总收入", PVal.num 110)] [("营业总收入", PVal.num 100)] 10
      (by with_unfolding_all rfl)
  · refine C8_growth_positive_base_only.2.1 revenue_keys_income
      [("营业总收入", PVal.num 110)] [("营业总收入", PVal.num (-5))] ?_
    intro k hk p hp
    fin_cases hk
    · rw [show safe_float (rowGetD [("营业总收入", PVal.num (-5))] "营业总收入") = some (-5)
        by with_unfolding_all rfl] at hp
      rcases Option.some_injective _ hp with rfl
      norm_num
    · rw [show safe_float (rowGetD [("营业总收入", PVal.num (-5))] "营业收入") = Option.none
        by with_unfolding_all rfl] at hp
      cases hp

/-- **C10.** The analysis-indicator fallback returns a record only when at
least one of roe, revenue growth or profit growth is truthy; since a parsed
`0.0` is falsy, a stock whose provider row yields `0.0` for all three fields
is treated as no data, and the eastmoney chain falls through to the
income-statement method. -/
theorem C10_zero_fields_fall_through :
    (∀ (code : String) (df : List Row) (r : FinancialIndicators),
      analysisIndicatorMethod code df = some r →
      (truthyQ r.roe || truthyQ r.revenue_growth || truthyQ r.profit_growth) = true) ∧
    (∀ (code : String) (df : List Row) (latest : Row),
      df.head? = some latest →
      firstAliasVal roe_keys latest = some 0 →
      firstAliasVal revenue_keys_indicator latest = some 0 →
      firstAliasVal profit_keys_indicator latest = some 0 →
      analysisIndicatorMethod code df = Option.none) ∧
    (∀ (code msg : String) (df : List Row) (latest : Row)
      (income : FetchOutcome (List Row)),
      df.head? = some latest →
      firstAliasVal roe_keys latest = some 0 →
      firstAliasVal revenue_keys_indicator latest = some 0 →
      firstAliasVal profit_keys_indicator latest = some 0 →
      get_indicators_from_eastmoney code ⟨.raise msg, .ok df, income⟩ =
        runMethod (incomeStatementMethod code) income) := by
  have hzero : ∀ (code : String) (df : List Row) (latest : Row),
      df.head? = some latest →
      firstAliasVal roe_keys latest = some 0 →
      firstAliasVal revenue_keys_indicator latest = some 0 →
      firstAliasVal profit_keys_indicator latest = some 0 →
      analysisIndicatorMethod code df = Option.none := by
    intro code df latest hhead hroe hrev hprof
    simp [analysisIndicatorMethod, hhead, hroe, hrev, hprof, truthyQ]
  refine ⟨?_, hzero, ?_⟩
  · intro code df r h
    cases df with
    | nil => simp [analysisIndicatorMethod] at h
    | cons latest tl =>
      simp only [analysisIndicatorMethod, List.head?] at h
      by_cases hif : (truthyQ (firstAliasVal roe_keys latest) ||
          truthyQ (firstAliasVal revenue_keys_indicator latest) ||
          truthyQ (firstAliasVal profit_keys_indicator latest)) = true
      · rw [if_pos hif] at h
        rcases Option.some_injective _ h with rfl
        exact hif
      · rw [if_neg hif] at h; cases h
  · intro code msg df latest income hhead hroe hrev hprof
    simp [get_indicators_from_eastmoney, runMethod, hzero code df latest hhead hroe hrev hprof]

/-- Witness for C10: a concrete row reporting `0.0` for ROE and both growth
aliases makes the whole eastmoney chain (with a raising abstract endpoint and
a raising income endpoint) produce no data. -/
theorem C10_zero_fields_fall_through_witness :
    get_indicators_from_eastmoney "600000"
      ⟨.raise "boom", .ok [[("ROE", PVal.num 0), ("营业总收入同比增长", PVal.num 0),
        ("净利润同比增长", PVal.num 0)]], .raise "down"⟩ = Option.none := by
  rw [C10_zero_fields_fall_through.2.2 "600000" "boom" _ _ (.raise "down")
    (by with_unfolding_all rfl) (by with_unfolding_all rfl)
    (by with_unfolding_all rfl) (by with_unfolding_all rfl)]
  with_unfolding_all rfl

/-- **C6.** If the Tushare provider raises (any message, including
authorization/quota text containing "积分" or "权限") or yields no usable
rows, `get_moneyflow` falls through to AkShare and the exception never
propagates (the overall result is exactly the AkShare computation); an
AkShare-produced record carries `data_source = "akshare_individual_flow"`, a
Tushare-produced record carries `data_source = "tushare_moneyflow"`, so a
result is never partially populated from both providers. -/
theorem C6_moneyflow_provider_fallback :
    (∀ (code msg : String) (akOutcome : FetchOutcome (List AkRow)),
      get_moneyflow code true (.raise msg) akOutcome =
        get_moneyflow_from_akshare code akOutcome) ∧
    (∀ (code : String) (akOutcome : FetchOutcome (List AkRow)),
      get_moneyflow code true (.ok []) akOutcome =
        get_moneyflow_from_akshare code akOutcome) ∧
    (∀ (code : String) (akOutcome : FetchOutcome (List AkRow)) (d : MoneyFlowData),
      get_moneyflow_from_akshare code akOutcome = some d →
      d.data_source = "akshare_individual_flow") ∧
    (∀ (code : String) (api_init : Bool) (tsOutcome : FetchOutcome (List TsRow))
      (d : MoneyFlowData),
      get_moneyflow_from_tushare code api_init tsOutcome = some d →
      d.data_source = "tushare_moneyflow") := by
  refine ⟨?_, ?_, ?_, ?_⟩
  · intro code msg akOutcome
    simp [get_moneyflow, get_moneyflow_from_tushare]
  · intro code akOutcome
    simp [get_moneyflow, get_moneyflow_from_tushare]
  · intro code akOutcome d h
    cases akOutcome with
    | raise msg => simp [get_moneyflow_from_akshare] at h
    | ok rows =>
      cases rows with
      | nil => simp [get_moneyflow_from_akshare] at h
      | cons latest tl =>
        simp only [get_moneyflow_from_akshare, List.head?] at h
        rcases Option.some_injective _ h with rfl
        rfl
  · intro code api_init tsOutcome d h
    cases api_init with
    | false => simp [get_moneyflow_from_tushare] at h
    | true =>
      cases tsOutcome with
      | raise msg => simp [get_moneyflow_from_tushare] at h
      | ok rows =>
        cases rows with
        | nil => simp [get_moneyflow_from_tushare] at h
        | cons latest tl =>
          simp only [get_moneyflow_from_tushare, List.head?, Bool.not_true,
            Bool.false_eq_true, if_false] at h
          rcases Option.some_injective _ h with rfl
          rfl

/-- Witness for C6: with Tushare raising an authorization message containing
"积分" and AkShare returning one row, the fetch result is exactly the AkShare
record and its source tag is the AkShare tag. -/
theorem C6_moneyflow_provider_fallback_witness :
    get_moneyflow "600519" true (.raise "抱歉，您没有接口访问权限，积分不足")
        (.ok [{ day := some "2026-01-09", main_net_yuan := some 12340000 }]) =
      get_moneyflow_from_akshare "600519"
        (.ok [{ day := some "2026-01-09", main_net_yuan := some 12340000 }]) ∧
    Option.map MoneyFlowData.data_source
        (get_moneyflow "600519" true (.raise "抱歉，您没有接口访问权限，积分不足")
          (.ok [{ day := some "2026-01-09", main_net_yuan := some 12340000 }])) =
      some "akshare_individual_flow" := by
  constructor
  · exact C6_moneyflow_provider_fallback.1 "600519" "抱歉，您没有接口访问权限，积分不足"
      (.ok [{ day := some "2026-01-09", main_net_yuan := some 12340000 }])
  · rw [C6_moneyflow_provider_fallback.1 "600519" "抱歉，您没有接口访问权限，积分不足"
      (.ok [{ day := some "2026-01-09", main_net_yuan := some 12340000 }])]
    with_unfolding_all rfl

/-- The body of `get_top_stocks_by_volume` catches every exception (network
ones included) and returns a list, so the decorated call can never observe an
exception. -/
theorem topVolumeCall_never_raises (o : HttpOutcome) : ∃ l, topVolumeCall o = .ok l := by
  cases o with
  | requestExc msg => exact ⟨[], rfl⟩
  | otherExc msg => exact ⟨[], rfl⟩
  | ok payload =>
    by_cases hc : (payload.rc ≠ 0 ∨ payload.diff = [])
    · exact ⟨[], by simp [topVolumeCall, topVolumeRaw, hc]⟩
    · have h2 : topVolumeCall (.ok payload) =
          .ok ((payload.diff.filter (fun s => s.f12 ≠ "")).map (fun s => s.f12)) := by
        simp [topVolumeCall, topVolumeRaw, hc]
      exact ⟨_, h2⟩

/-- Same for the body of `get_top_stocks_by_change`. -/
theorem topChangeCall_never_raises (n : ℕ) (est : Bool) (o : HttpOutcome) :
    ∃ l, topChangeCall n est o = .ok l := by
  cases o with
  | requestExc msg => exact ⟨[], rfl⟩
  | otherExc msg => exact ⟨[], rfl⟩
  | ok payload =>
    by_cases hc : (payload.rc ≠ 0 ∨ payload.diff = [])
    · exact ⟨[], by simp [topChangeCall, topChangeRaw, hc]⟩
    · have h2 : topChangeCall n est (.ok payload) =
          .ok (collectChange n est payload.diff []) := by
        simp [topChangeCall, topChangeRaw, hc]
      exact ⟨_, h2⟩

/-- **C4** (the code contradicts its own retry decorator).  Because both
function bodies catch `RequestException` (and every other exception) and
return `[]`, the tenacity decorator — whose comment and configuration promise
up to 3 attempts with exponential backoff on network errors — never sees a
retryable exception: every execution performs exactly one attempt, and a
network failure on attempt 0 yields `[]` immediately with no retry, even
though the raw body raises a retryable `RequestException` there. -/
theorem C4_retry_decorator_never_fires :
    (∀ env : ℕ → HttpOutcome, (get_top_stocks_by_volume env).1 = 1) ∧
    (∀ (n : ℕ) (est : Bool) (env : ℕ → HttpOutcome),
      (get_top_stocks_by_change n est env).1 = 1) ∧
    get_top_stocks_by_volume (fun _ => .requestExc "Connection timed out") = (1, .ok []) ∧
    get_top_stocks_by_change 10 true (fun _ => .requestExc "Connection timed out") =
      (1, .ok []) ∧
    topVolumeRaw (.requestExc "Connection timed out") =
      .error (.requestException "Connection timed out") ∧
    retryableNetErr (.requestException "Connection timed out") = true := by
  refine ⟨?_, ?_, ?_, ?_, ?_, ?_⟩
  · intro env
    obtain ⟨l, hl⟩ := topVolumeCall_never_raises (env 0)
    simp [get_top_stocks_by_volume, tenacityRun, hl]
  · intro n est env
    obtain ⟨l, hl⟩ := topChangeCall_never_raises n est (env 0)
    simp [get_top_stocks_by_change, tenacityRun, hl]
  all_goals with_unfolding_all rfl

end StockAnalysis
